import Mathlib

/-!
# ST7735 LCD panel driver (`components/esp_lcd/src/esp_lcd_panel_st7735.c`)

A shallow embedding of the driver.  The driver's collaborators (the panel IO
transport, the GPIO driver, the FreeRTOS delay) are modelled by a trace of
events: every call the driver makes to a collaborator appends one event, and
the value the collaborator returns is read from an oracle (`Env`).  A driver
function takes the driver object and the trace so far and returns the
`esp_err_t`, the driver object afterwards and the extended trace.

Machine integers: `int` is an `Int` wrapped to 32 bits after every arithmetic
operation (`wrap32`), `uint8_t` is a `Nat` reduced modulo 256 at every store.
-/

namespace St7735

/-! ## Constants of headers that are not part of the translated file -/

/-- Constants the driver takes from `esp_lcd_panel_commands.h`, `esp_err.h`,
`esp_lcd_panel_vendor.h` and `driver/gpio.h`.  Their values are not fixed by
the driver source, so every definition below takes them as a parameter. -/
structure Headers where
  ESP_OK : Int
  ESP_ERR_NO_MEM : Int
  ESP_ERR_NOT_SUPPORTED : Int
  ESP_LCD_COLOR_SPACE_RGB : Int
  ESP_LCD_COLOR_SPACE_BGR : Int
  GPIO_MODE_OUTPUT : Int
  LCD_CMD_SWRESET : Int
  LCD_CMD_SLPOUT : Int
  LCD_CMD_NORON : Int
  LCD_CMD_INVOFF : Int
  LCD_CMD_INVON : Int
  LCD_CMD_DISPOFF : Int
  LCD_CMD_DISPON : Int
  LCD_CMD_CASET : Int
  LCD_CMD_RASET : Int
  LCD_CMD_RAMWR : Int
  LCD_CMD_MADCTL : Int
  LCD_CMD_COLMOD : Int
  LCD_CMD_MY_BIT : Nat
  LCD_CMD_MX_BIT : Nat
  LCD_CMD_MV_BIT : Nat
  LCD_CMD_BGR_BIT : Nat

/-- The values these constants have in ESP-IDF (MIPI DCS opcodes, `esp_err.h`
error numbers); used to evaluate the driver on concrete inputs. -/
def esp_idf : Headers where
  ESP_OK := 0
  ESP_ERR_NO_MEM := 0x101
  ESP_ERR_NOT_SUPPORTED := 0x106
  ESP_LCD_COLOR_SPACE_RGB := 0
  ESP_LCD_COLOR_SPACE_BGR := 1
  GPIO_MODE_OUTPUT := 2
  LCD_CMD_SWRESET := 0x01
  LCD_CMD_SLPOUT := 0x11
  LCD_CMD_NORON := 0x13
  LCD_CMD_INVOFF := 0x20
  LCD_CMD_INVON := 0x21
  LCD_CMD_DISPOFF := 0x28
  LCD_CMD_DISPON := 0x29
  LCD_CMD_CASET := 0x2a
  LCD_CMD_RASET := 0x2b
  LCD_CMD_RAMWR := 0x2c
  LCD_CMD_MADCTL := 0x36
  LCD_CMD_COLMOD := 0x3a
  LCD_CMD_MY_BIT := 0x80
  LCD_CMD_MX_BIT := 0x40
  LCD_CMD_MV_BIT := 0x20
  LCD_CMD_BGR_BIT := 0x08

/-- The four MADCTL bit masks fit a `uint8_t` and are pairwise disjoint. -/
def Headers.bits_ok (k : Headers) : Prop :=
  k.LCD_CMD_MX_BIT < 256 ∧ k.LCD_CMD_MY_BIT < 256 ∧ k.LCD_CMD_MV_BIT < 256 ∧
  k.LCD_CMD_BGR_BIT < 256 ∧
  k.LCD_CMD_MX_BIT &&& k.LCD_CMD_MY_BIT = 0 ∧ k.LCD_CMD_MX_BIT &&& k.LCD_CMD_MV_BIT = 0 ∧
  k.LCD_CMD_MY_BIT &&& k.LCD_CMD_MV_BIT = 0 ∧
  k.LCD_CMD_BGR_BIT &&& k.LCD_CMD_MX_BIT = 0 ∧ k.LCD_CMD_BGR_BIT &&& k.LCD_CMD_MY_BIT = 0 ∧
  k.LCD_CMD_BGR_BIT &&& k.LCD_CMD_MV_BIT = 0

instance (k : Headers) : Decidable k.bits_ok := by
  unfold Headers.bits_ok; infer_instance

/-- `LCD_CMD_FRMCTR1` of the driver source. -/
def LCD_CMD_FRMCTR1 : Int := 0xb1
/-- `LCD_CMD_FRMCTR2` of the driver source. -/
def LCD_CMD_FRMCTR2 : Int := 0xb2
/-- `LCD_CMD_FRMCTR3` of the driver source. -/
def LCD_CMD_FRMCTR3 : Int := 0xb3
/-- `LCD_CMD_INVCTR` of the driver source. -/
def LCD_CMD_INVCTR : Int := 0xb4
/-- `LCD_CMD_PWCTR1` of the driver source. -/
def LCD_CMD_PWCTR1 : Int := 0xc0
/-- `LCD_CMD_PWCTR2` of the driver source. -/
def LCD_CMD_PWCTR2 : Int := 0xc1
/-- `LCD_CMD_PWCTR3` of the driver source. -/
def LCD_CMD_PWCTR3 : Int := 0xc2
/-- `LCD_CMD_PWCTR4` of the driver source. -/
def LCD_CMD_PWCTR4 : Int := 0xc3
/-- `LCD_CMD_PWCTR5` of the driver source. -/
def LCD_CMD_PWCTR5 : Int := 0xc4
/-- `LCD_CMD_VMCTR1` of the driver source. -/
def LCD_CMD_VMCTR1 : Int := 0xc5
/-- `LCD_CMD_GMCTRP1` of the driver source. -/
def LCD_CMD_GMCTRP1 : Int := 0xe0
/-- `LCD_CMD_GMCTRN1` of the driver source. -/
def LCD_CMD_GMCTRN1 : Int := 0xe1

/-! ## Machine integers -/

/-- A mathematical integer reduced to the value of a 32-bit two's complement `int`. -/
def wrap32 (x : Int) : Int := (x + 2 ^ 31) % 2 ^ 32 - 2 ^ 31

/-- Addition of two `int`. -/
def int_add (a b : Int) : Int := wrap32 (a + b)
/-- Subtraction of two `int`. -/
def int_sub (a b : Int) : Int := wrap32 (a - b)
/-- Multiplication of two `int`. -/
def int_mul (a b : Int) : Int := wrap32 (a * b)

/-- Conversion of an `int` to `uint8_t` (an element of a `uint8_t[]` initialiser). -/
def to_uint8 (x : Int) : Nat := (x % 256).toNat

/-- Conversion of an `int` to `size_t` (32 bits on the targets of this driver). -/
def to_size_t (x : Int) : Nat := (x % 2 ^ 32).toNat

/-- The C expression `a && b` on two `int`: 1 when both are non-zero, else 0. -/
def logical_and (a b : Int) : Int := if a ≠ 0 ∧ b ≠ 0 then 1 else 0

/-- The bit pattern of `~b` for an `int` constant `b`, read as an unsigned 32-bit number. -/
def bit_not32 (b : Nat) : Nat := 2 ^ 32 - 1 - b % 2 ^ 32

/-- The statement `v |= b` on a `uint8_t` variable. -/
def u8_or_assign (v b : Nat) : Nat := (v ||| b) % 256

/-- The statement `v &= ~b` on a `uint8_t` variable. -/
def u8_and_not_assign (v b : Nat) : Nat := (v &&& bit_not32 b) % 256

/-! ## Collaborators -/

/-- One call made by the driver to a collaborator. -/
inductive Event where
  /-- A call `gpio_config(&io_conf)` with the `mode` and `pin_bit_mask` of `io_conf`. -/
  | gpio_config (mode : Int) (pin_bit_mask : Nat)
  /-- A call `gpio_reset_pin(gpio_num)`. -/
  | gpio_reset_pin (gpio_num : Int)
  /-- A call `gpio_set_level(gpio_num, level)`. -/
  | gpio_set_level (gpio_num : Int) (level : Bool)
  /-- A call `vTaskDelay(pdMS_TO_TICKS(ms))`. -/
  | delay_ms (ms : Nat)
  /-- A call `esp_lcd_panel_io_tx_param(io, lcd_cmd, param, param_size)`; `param` lists the
  `param_size` bytes. -/
  | tx_param (io : Nat) (lcd_cmd : Int) (param : List Nat)
  /-- A call `esp_lcd_panel_io_tx_color(io, lcd_cmd, color, color_size)`. -/
  | tx_color (io : Nat) (lcd_cmd : Int) (color : List Nat) (color_size : Nat)
deriving DecidableEq, Repr

/-- The calls made so far, oldest first. -/
abbrev Trace := List Event

/-- What the collaborators answer: whether `calloc` returns memory, and the `esp_err_t` a
call returns, which may depend on everything that happened before it. -/
structure Env where
  calloc_ok : Bool
  ret : Trace → Event → Int

/-- Whether an event is a write to the transport. -/
def Event.is_tx : Event → Bool
  | .tx_param _ _ _ => true
  | .tx_color _ _ _ _ => true
  | _ => false

/-- Whether an event is a GPIO call. -/
def Event.is_gpio : Event → Bool
  | .gpio_config _ _ => true
  | .gpio_reset_pin _ => true
  | .gpio_set_level _ _ => true
  | _ => false

/-- Perform one collaborator call: the returned code and the extended trace. -/
def call (env : Env) (e : Event) (w : Trace) : Int × Trace := (env.ret w e, w ++ [e])

/-- `esp_lcd_panel_io_tx_param`. -/
def esp_lcd_panel_io_tx_param (env : Env) (io : Nat) (lcd_cmd : Int) (param : List Nat)
    (w : Trace) : Int × Trace :=
  call env (.tx_param io lcd_cmd param) w

/-- `esp_lcd_panel_io_tx_color`. -/
def esp_lcd_panel_io_tx_color (env : Env) (io : Nat) (lcd_cmd : Int) (color : List Nat)
    (color_size : Nat) (w : Trace) : Int × Trace :=
  call env (.tx_color io lcd_cmd color color_size) w

/-- `vTaskDelay(pdMS_TO_TICKS(ms))`; it returns nothing. -/
def vTaskDelay_ms (ms : Nat) (w : Trace) : Trace := w ++ [.delay_ms ms]

/-! ## Data model -/

/-- `st7735_panel_t`, without `base` (the table of function pointers, which construction
fills with the functions below and nothing changes afterwards). -/
structure st7735_panel_t where
  io : Nat
  reset_gpio_num : Int
  reset_level : Bool
  x_gap : Int
  y_gap : Int
  fb_bits_per_pixel : Nat
  madctl_val : Nat
  colmod_cal : Nat
deriving DecidableEq, Repr

/-- The fields of `esp_lcd_panel_dev_config_t` the driver reads. -/
structure esp_lcd_panel_dev_config_t where
  reset_gpio_num : Int
  color_space : Int
  bits_per_pixel : Int
  reset_active_high : Bool
deriving DecidableEq, Repr

/-- The object `calloc(1, sizeof(st7735_panel_t))` returns: all fields zero. -/
def calloc_panel : st7735_panel_t :=
  { io := 0, reset_gpio_num := 0, reset_level := false, x_gap := 0, y_gap := 0,
    fb_bits_per_pixel := 0, madctl_val := 0, colmod_cal := 0 }

/-- The result of a driver function: return code, driver object, trace. -/
abbrev Result := Int × st7735_panel_t × Trace

/-! ## The driver functions -/

/-- The `err:` label of `esp_lcd_new_panel_st7735`, reached with a non-null `st7735`:
the reset pin is released when one was given, the object is freed and `ret` returned. -/
def new_panel_err (env : Env) (panel_dev_config : esp_lcd_panel_dev_config_t)
    (ret : Int) (w : Trace) : Int × Option st7735_panel_t × Trace :=
  let w := if panel_dev_config.reset_gpio_num ≥ 0 then
      (call env (.gpio_reset_pin panel_dev_config.reset_gpio_num) w).2
    else w
  (ret, none, w)

/-- The part of `esp_lcd_new_panel_st7735` from the assignment of `st7735->io` to
`return ESP_OK`, for the `fb_bits_per_pixel` the second `switch` chose. -/
def new_panel_fill (k : Headers) (io : Nat) (panel_dev_config : esp_lcd_panel_dev_config_t)
    (st7735 : st7735_panel_t) (fb_bits_per_pixel : Nat) (w : Trace) :
    Int × Option st7735_panel_t × Trace :=
  (k.ESP_OK,
   some { st7735 with
          io := io
          fb_bits_per_pixel := fb_bits_per_pixel
          reset_gpio_num := panel_dev_config.reset_gpio_num
          reset_level := panel_dev_config.reset_active_high },
   w)

/-- The part of `esp_lcd_new_panel_st7735` from `switch (panel_dev_config->bits_per_pixel)`
on. -/
def new_panel_pixel_width (k : Headers) (env : Env) (io : Nat)
    (panel_dev_config : esp_lcd_panel_dev_config_t) (st7735 : st7735_panel_t) (w : Trace) :
    Int × Option st7735_panel_t × Trace :=
  if panel_dev_config.bits_per_pixel = 16 then
    new_panel_fill k io panel_dev_config { st7735 with colmod_cal := 0x55 } 16 w
  else if panel_dev_config.bits_per_pixel = 18 then
    new_panel_fill k io panel_dev_config { st7735 with colmod_cal := 0x66 } 24 w
  else
    new_panel_err env panel_dev_config k.ESP_ERR_NOT_SUPPORTED w

/-- The part of `esp_lcd_new_panel_st7735` from `switch (panel_dev_config->color_space)`
on. -/
def new_panel_color_space (k : Headers) (env : Env) (io : Nat)
    (panel_dev_config : esp_lcd_panel_dev_config_t) (st7735 : st7735_panel_t) (w : Trace) :
    Int × Option st7735_panel_t × Trace :=
  if panel_dev_config.color_space = k.ESP_LCD_COLOR_SPACE_RGB then
    new_panel_pixel_width k env io panel_dev_config { st7735 with madctl_val := 0 } w
  else if panel_dev_config.color_space = k.ESP_LCD_COLOR_SPACE_BGR then
    new_panel_pixel_width k env io panel_dev_config
      { st7735 with madctl_val := u8_or_assign st7735.madctl_val k.LCD_CMD_BGR_BIT } w
  else
    new_panel_err env panel_dev_config k.ESP_ERR_NOT_SUPPORTED w

/-- `esp_lcd_new_panel_st7735`: the return code, `*ret_panel` when it was written, and the
trace.  `1ULL << n` is written `2 ^ n % 2 ^ 64`, which is its value for the pin numbers 0 to
63; for a larger `n` the C shift is undefined and the expression stands for no value of the
code.  `ESP_GOTO_ON_FALSE(c, e, err, ..)` is `if (!c) { ret = e; goto err; }` and
`ESP_GOTO_ON_ERROR(x, err, ..)` is `if (x != ESP_OK) { ret = x; goto err; }`. -/
def esp_lcd_new_panel_st7735 (k : Headers) (env : Env) (io : Nat)
    (panel_dev_config : esp_lcd_panel_dev_config_t) (w : Trace) :
    Int × Option st7735_panel_t × Trace :=
  if !env.calloc_ok then
    -- `err:` with `st7735 == NULL`
    (k.ESP_ERR_NO_MEM, none, w)
  else
    let st7735 := calloc_panel
    if panel_dev_config.reset_gpio_num ≥ 0 then
      let r := call env (.gpio_config k.GPIO_MODE_OUTPUT
        (2 ^ panel_dev_config.reset_gpio_num.toNat % 2 ^ 64)) w
      if r.1 ≠ k.ESP_OK then new_panel_err env panel_dev_config r.1 r.2
      else new_panel_color_space k env io panel_dev_config st7735 r.2
    else new_panel_color_space k env io panel_dev_config st7735 w

/-- `panel_st7735_del`: the trace; the object is freed. -/
def panel_st7735_del (k : Headers) (env : Env) (st7735 : st7735_panel_t) (w : Trace) :
    Int × Trace :=
  let w := if st7735.reset_gpio_num ≥ 0 then
      (call env (.gpio_reset_pin st7735.reset_gpio_num) w).2
    else w
  (k.ESP_OK, w)

/-- `panel_st7735_reset`. -/
def panel_st7735_reset (k : Headers) (env : Env) (st7735 : st7735_panel_t) (w : Trace) :
    Result :=
  let io := st7735.io
  let w :=
    if st7735.reset_gpio_num ≥ 0 then
      let w := (call env (.gpio_set_level st7735.reset_gpio_num st7735.reset_level) w).2
      let w := vTaskDelay_ms 10 w
      let w := (call env (.gpio_set_level st7735.reset_gpio_num (!st7735.reset_level)) w).2
      vTaskDelay_ms 10 w
    else
      let w := (esp_lcd_panel_io_tx_param env io k.LCD_CMD_SWRESET [] w).2
      vTaskDelay_ms 120 w
  (k.ESP_OK, st7735, w)

/-- `panel_st7735_init`. -/
def panel_st7735_init (k : Headers) (env : Env) (st7735 : st7735_panel_t) (w : Trace) :
    Result :=
  let io := st7735.io
  let w := (esp_lcd_panel_io_tx_param env io k.LCD_CMD_SWRESET [] w).2
  let w := vTaskDelay_ms 150 w
  let w := (esp_lcd_panel_io_tx_param env io k.LCD_CMD_SLPOUT [] w).2
  let w := vTaskDelay_ms 255 w
  let w := (esp_lcd_panel_io_tx_param env io LCD_CMD_FRMCTR1 [0x01, 0x2c, 0x2d] w).2
  let w := (esp_lcd_panel_io_tx_param env io LCD_CMD_FRMCTR2 [0x01, 0x2c, 0x2d] w).2
  let w := (esp_lcd_panel_io_tx_param env io LCD_CMD_FRMCTR3
    [0x01, 0x2c, 0x2d, 0x01, 0x2c, 0x2d] w).2
  let w := (esp_lcd_panel_io_tx_param env io LCD_CMD_INVCTR [0x07] w).2
  let w := (esp_lcd_panel_io_tx_param env io LCD_CMD_PWCTR1 [0xa2, 0x02, 0x84] w).2
  let w := (esp_lcd_panel_io_tx_param env io LCD_CMD_PWCTR2 [0xc5] w).2
  let w := (esp_lcd_panel_io_tx_param env io LCD_CMD_PWCTR3 [0x0a, 0x00] w).2
  let w := (esp_lcd_panel_io_tx_param env io LCD_CMD_PWCTR4 [0x8a, 0x2a] w).2
  let w := (esp_lcd_panel_io_tx_param env io LCD_CMD_PWCTR5 [0x8a, 0xee] w).2
  let w := (esp_lcd_panel_io_tx_param env io LCD_CMD_VMCTR1 [0x0e] w).2
  let w := (esp_lcd_panel_io_tx_param env io k.LCD_CMD_INVOFF [] w).2
  let w := (esp_lcd_panel_io_tx_param env io k.LCD_CMD_MADCTL [st7735.madctl_val] w).2
  let w := (esp_lcd_panel_io_tx_param env io k.LCD_CMD_COLMOD [st7735.colmod_cal] w).2
  -- Need to consider different gaps
  let w := (esp_lcd_panel_io_tx_param env io k.LCD_CMD_CASET
    [0x00, to_uint8 st7735.x_gap, 0x00, to_uint8 (int_add 0x7f st7735.x_gap)] w).2
  let w := (esp_lcd_panel_io_tx_param env io k.LCD_CMD_RASET
    [0x00, to_uint8 st7735.y_gap, 0x00, to_uint8 (int_add 0x9f st7735.y_gap)] w).2
  let w := (esp_lcd_panel_io_tx_param env io LCD_CMD_GMCTRP1
    [0x02, 0x1c, 0x07, 0x12, 0x37, 0x32, 0x29, 0x2d,
     0x29, 0x25, 0x2b, 0x39, 0x00, 0x01, 0x03, 0x10] w).2
  let w := (esp_lcd_panel_io_tx_param env io LCD_CMD_GMCTRN1
    [0x03, 0x1d, 0x07, 0x06, 0x2e, 0x2c, 0x29, 0x2d,
     0x2e, 0x2e, 0x37, 0x3f, 0x00, 0x00, 0x02, 0x10] w).2
  let w := (esp_lcd_panel_io_tx_param env io k.LCD_CMD_NORON [] w).2
  let w := vTaskDelay_ms 10 w
  let w := (esp_lcd_panel_io_tx_param env io k.LCD_CMD_DISPON [] w).2
  let w := vTaskDelay_ms 100 w
  (k.ESP_OK, st7735, w)

/-- The four `uint8_t` of the column address command of `panel_st7735_draw_bitmap`, for the
gap-shifted `x_start` and `x_end`; the row address command uses the same expressions. -/
def draw_bitmap_window (x_start x_end : Int) : List Nat :=
  [to_uint8 (Int.land (x_start >>> (8 : Nat)) 0xff), to_uint8 (Int.land x_start 0xff),
   to_uint8 (logical_and (int_sub x_end 1 >>> (8 : Nat)) 0xff),
   to_uint8 (Int.land (int_sub x_end 1) 0xff)]

/-- The `len` of `panel_st7735_draw_bitmap`, for the gap-shifted coordinates. -/
def draw_bitmap_len (st7735 : st7735_panel_t) (x_start y_start x_end y_end : Int) : Nat :=
  to_size_t (int_mul (int_mul (int_sub x_end x_start) (int_sub y_end y_start))
    st7735.fb_bits_per_pixel >>> (3 : Nat))

/-- `panel_st7735_draw_bitmap`; `color_data` is the caller's buffer. -/
def panel_st7735_draw_bitmap (k : Headers) (env : Env) (st7735 : st7735_panel_t)
    (x_start y_start x_end y_end : Int) (color_data : List Nat) (w : Trace) : Result :=
  let io := st7735.io
  let x_start := int_add x_start st7735.x_gap
  let x_end := int_add x_end st7735.x_gap
  let y_start := int_add y_start st7735.y_gap
  let y_end := int_add y_end st7735.y_gap
  let w := (esp_lcd_panel_io_tx_param env io k.LCD_CMD_CASET
    (draw_bitmap_window x_start x_end) w).2
  let w := (esp_lcd_panel_io_tx_param env io k.LCD_CMD_RASET
    (draw_bitmap_window y_start y_end) w).2
  let len := draw_bitmap_len st7735 x_start y_start x_end y_end
  let w := (esp_lcd_panel_io_tx_color env io k.LCD_CMD_RAMWR color_data len w).2
  (k.ESP_OK, st7735, w)

/-- `panel_st7735_invert_color`. -/
def panel_st7735_invert_color (k : Headers) (env : Env) (st7735 : st7735_panel_t)
    (invert_color_data : Bool) (w : Trace) : Result :=
  let io := st7735.io
  let command := if invert_color_data then k.LCD_CMD_INVON else k.LCD_CMD_INVOFF
  let w := (esp_lcd_panel_io_tx_param env io command [] w).2
  (k.ESP_OK, st7735, w)

/-- `panel_st7735_mirror`. -/
def panel_st7735_mirror (k : Headers) (env : Env) (st7735 : st7735_panel_t)
    (mirror_x mirror_y : Bool) (w : Trace) : Result :=
  let io := st7735.io
  let st7735 :=
    if mirror_x then
      { st7735 with madctl_val := u8_or_assign st7735.madctl_val k.LCD_CMD_MX_BIT }
    else
      { st7735 with madctl_val := u8_and_not_assign st7735.madctl_val k.LCD_CMD_MX_BIT }
  let st7735 :=
    if mirror_y then
      { st7735 with madctl_val := u8_or_assign st7735.madctl_val k.LCD_CMD_MY_BIT }
    else
      { st7735 with madctl_val := u8_and_not_assign st7735.madctl_val k.LCD_CMD_MY_BIT }
  let w := (esp_lcd_panel_io_tx_param env io k.LCD_CMD_MADCTL [st7735.madctl_val] w).2
  (k.ESP_OK, st7735, w)

/-- `panel_st7735_swap_xy`. -/
def panel_st7735_swap_xy (k : Headers) (env : Env) (st7735 : st7735_panel_t)
    (swap_axes : Bool) (w : Trace) : Result :=
  let io := st7735.io
  let st7735 :=
    if swap_axes then
      { st7735 with madctl_val := u8_or_assign st7735.madctl_val k.LCD_CMD_MV_BIT }
    else
      { st7735 with madctl_val := u8_and_not_assign st7735.madctl_val k.LCD_CMD_MV_BIT }
  let w := (esp_lcd_panel_io_tx_param env io k.LCD_CMD_MADCTL [st7735.madctl_val] w).2
  (k.ESP_OK, st7735, w)

/-- `panel_st7735_set_gap`. -/
def panel_st7735_set_gap (k : Headers) (st7735 : st7735_panel_t) (x_gap y_gap : Int)
    (w : Trace) : Result :=
  (k.ESP_OK, { st7735 with x_gap := x_gap, y_gap := y_gap }, w)

/-- `panel_st7735_disp_off`. -/
def panel_st7735_disp_off (k : Headers) (env : Env) (st7735 : st7735_panel_t) (off : Bool)
    (w : Trace) : Result :=
  let io := st7735.io
  let command := if off then k.LCD_CMD_DISPOFF else k.LCD_CMD_DISPON
  let w := (esp_lcd_panel_io_tx_param env io command [] w).2
  (k.ESP_OK, st7735, w)

/-! ## Sequences of operations on a constructed driver -/

/-- A call of one of the functions of the driver's table other than `del`. -/
inductive PanelOp where
  | reset
  | init
  | draw_bitmap (x_start y_start x_end y_end : Int) (color_data : List Nat)
  | invert_color (invert_color_data : Bool)
  | mirror (mirror_x mirror_y : Bool)
  | swap_xy (swap_axes : Bool)
  | set_gap (x_gap y_gap : Int)
  | disp_off (off : Bool)
deriving DecidableEq, Repr

/-- Dispatch of one call through the table. -/
def PanelOp.run (k : Headers) (env : Env) (st7735 : st7735_panel_t) (w : Trace) :
    PanelOp → Result
  | .reset => panel_st7735_reset k env st7735 w
  | .init => panel_st7735_init k env st7735 w
  | .draw_bitmap xs ys xe ye d => panel_st7735_draw_bitmap k env st7735 xs ys xe ye d w
  | .invert_color b => panel_st7735_invert_color k env st7735 b w
  | .mirror mx my => panel_st7735_mirror k env st7735 mx my w
  | .swap_xy b => panel_st7735_swap_xy k env st7735 b w
  | .set_gap x y => panel_st7735_set_gap k st7735 x y w
  | .disp_off b => panel_st7735_disp_off k env st7735 b w

/-- A sequence of calls, whatever each returns: the driver object and trace at the end. -/
def run_ops (k : Headers) (env : Env) : List PanelOp → st7735_panel_t → Trace →
    st7735_panel_t × Trace
  | [], st7735, w => (st7735, w)
  | op :: ops, st7735, w =>
    let r := op.run k env st7735 w
    run_ops k env ops r.2.1 r.2.2

/-- An environment in which every call succeeds. -/
def env_ok (k : Headers) : Env := { calloc_ok := true, ret := fun _ _ => k.ESP_OK }

/-- An environment in which memory is available and every collaborator call fails with
`ESP_FAIL` (-1). -/
def env_fail : Env := { calloc_ok := true, ret := fun _ _ => -1 }

/-- The events a run appended: the trace `w'` without its prefix `w`. -/
def emitted (w w' : Trace) : Trace := w'.drop w.length

/-- The bytes of claims C1 and C6, from their words: `hi(v) = (v >> 8) & 0xff`. -/
def spec_hi (v : Int) : Nat := (Int.land (v >>> (8 : Nat)) 0xff).toNat

/-- The bytes of claims C1 and C6, from their words: `lo(v) = v & 0xff`. -/
def spec_lo (v : Int) : Nat := (Int.land v 0xff).toNat

/-- The address window of claims C1 and C6, from their words: the 16-bit big-endian first
and last address `[hi(s), lo(s), hi(l), lo(l)]`. -/
def spec_window (s l : Int) : List Nat := [spec_hi s, spec_lo s, spec_hi l, spec_lo l]

/-- The driver object a construction with 16 bits per pixel, RGB order and no reset line
returns for the transport handle 0. -/
def panel_rgb565 : st7735_panel_t :=
  { io := 0, reset_gpio_num := -1, reset_level := false, x_gap := 0, y_gap := 0,
    fb_bits_per_pixel := 16, madctl_val := 0, colmod_cal := 0x55 }

/-- Whether an event is a delay. -/
def Event.is_delay : Event → Bool
  | .delay_ms _ => true
  | _ => false

/-- The register value of claim C4, from its words: the colour-order bit OR
(`LCD_CMD_MX_BIT` if `mirror_x`) OR (`LCD_CMD_MY_BIT` if `mirror_y`) OR (`LCD_CMD_MV_BIT` if
`swap_axes`). -/
def orientation_value (k : Headers) (color_bit : Nat) (mirror_x mirror_y swap_axes : Bool) :
    Nat :=
  color_bit ||| (if mirror_x then k.LCD_CMD_MX_BIT else 0) |||
    (if mirror_y then k.LCD_CMD_MY_BIT else 0) ||| (if swap_axes then k.LCD_CMD_MV_BIT else 0)

/-- The colour-order bit of a configuration: 0 for RGB, `LCD_CMD_BGR_BIT` otherwise (a
configuration that is accepted and is not RGB is BGR). -/
def color_order_bit (k : Headers) (cfg : esp_lcd_panel_dev_config_t) : Nat :=
  if cfg.color_space = k.ESP_LCD_COLOR_SPACE_RGB then 0 else k.LCD_CMD_BGR_BIT

/-- A call of `mirror` followed by a call of `swap_xy`. -/
def mirror_then_swap_xy (k : Headers) (env : Env) (st7735 : st7735_panel_t)
    (mirror_x mirror_y swap_axes : Bool) (w : Trace) : Result :=
  let r := panel_st7735_mirror k env st7735 mirror_x mirror_y w
  panel_st7735_swap_xy k env r.2.1 swap_axes r.2.2

/-- A call of `swap_xy` followed by a call of `mirror`. -/
def swap_xy_then_mirror (k : Headers) (env : Env) (st7735 : st7735_panel_t)
    (mirror_x mirror_y swap_axes : Bool) (w : Trace) : Result :=
  let r := panel_st7735_swap_xy k env st7735 swap_axes w
  panel_st7735_mirror k env r.2.1 mirror_x mirror_y r.2.2

/-- The driver object a construction with 18 bits per pixel, BGR order and reset line 4
(active high) returns for the transport handle 7. -/
def panel_bgr666 : st7735_panel_t :=
  { io := 7, reset_gpio_num := 4, reset_level := true, x_gap := 0, y_gap := 0,
    fb_bits_per_pixel := 24, madctl_val := 8, colmod_cal := 0x66 }

/-- The invariant of the orientation register: the driver still uses the transport handle
`io`, and `madctl_val` is the colour-order bit `color_bit` together with some choice of the
three orientation masks. -/
def orientation_inv (k : Headers) (color_bit io : Nat) (st7735 : st7735_panel_t) : Prop :=
  st7735.io = io ∧
  ∃ a b c : Bool, st7735.madctl_val = orientation_value k color_bit a b c

/-- The trace after the reset pin step of construction, when it succeeds. -/
def after_gpio_config (k : Headers) (cfg : esp_lcd_panel_dev_config_t) (w : Trace) : Trace :=
  if cfg.reset_gpio_num ≥ 0 then
    w ++ [.gpio_config k.GPIO_MODE_OUTPUT (2 ^ cfg.reset_gpio_num.toNat % 2 ^ 64)]
  else w

/-- Whether an event is a call of `gpio_config`. -/
def Event.is_gpio_config : Event → Bool
  | .gpio_config _ _ => true
  | _ => false

/-- The driver object a construction with 16 bits per pixel, BGR order and no reset line
returns for the transport handle 3. -/
def panel_bgr565 : st7735_panel_t :=
  { io := 3, reset_gpio_num := -1, reset_level := false, x_gap := 0, y_gap := 0,
    fb_bits_per_pixel := 16, madctl_val := 8, colmod_cal := 0x55 }

/-- One orientation step on the register: `v |= b` when the flag is requested, `v &= ~b`
otherwise (the `if`/`else` of `mirror` and `swap_xy`). -/
def u8_set_or_clear (flag : Bool) (v b : Nat) : Nat :=
  if flag then u8_or_assign v b else u8_and_not_assign v b

/-- One bit of an orientation step: `low` tells whether the bit is one of the 8 of a byte,
`v` is the bit of the register and `m` the bit of the mask. -/
def bit_set_or_clear (flag low v m : Bool) : Bool :=
  low && (bif flag then v || m else v && !m)

/-! ## Theorems -/

/-- C1 (code at the failing input): on the driver constructed for RGB565 with zero gaps,
`draw_bitmap(0, 0, 513, 2, buf)` sends the column window `[0, 0, 1, 0]`, while the 16-bit
big-endian encoding of the first column 0 and last column 512 is `[0, 0, 2, 0]`: the high
byte of the last column is computed with `&&` and is never more than 1. -/
theorem draw_bitmap_last_column_high_byte :
    esp_lcd_new_panel_st7735 esp_idf (env_ok esp_idf) 0 ⟨-1, 0, 16, false⟩ []
      = (0, some panel_rgb565, []) ∧
    (panel_st7735_draw_bitmap esp_idf (env_ok esp_idf) panel_rgb565 0 0 513 2 [] []).2.2
      = [.tx_param 0 0x2a [0, 0, 1, 0], .tx_param 0 0x2b [0, 0, 0, 1],
         .tx_color 0 0x2c [] 2052] ∧
    spec_window (0 + 0) (513 + 0 - 1) = [0, 0, 2, 0] := by
  decide

/-- C2 (counterexample): with a transport whose every send fails, `init` still returns
`ESP_OK` and goes on to issue all of its 21 transport calls. -/
theorem init_swallows_transport_failure :
    env_fail.ret [] (.tx_param 0 esp_idf.LCD_CMD_SWRESET []) ≠ esp_idf.ESP_OK ∧
    (panel_st7735_init esp_idf env_fail panel_rgb565 []).1 = esp_idf.ESP_OK ∧
    ((panel_st7735_init esp_idf env_fail panel_rgb565 []).2.2.filter Event.is_tx).length
      = 21 := by
  decide

/-- C2 (amended): every operation of the driver ignores the code a transport send returns:
whatever the transport answers, the operation returns `ESP_OK` and its result (driver
object and all calls issued) is the one obtained with a transport that never fails. -/
theorem transport_result_ignored (k : Headers) (env : Env) (st : st7735_panel_t) (w : Trace)
    (op : PanelOp) :
    (op.run k env st w).1 = k.ESP_OK ∧ op.run k env st w = op.run k (env_ok k) st w := by
  cases op <;> exact ⟨rfl, rfl⟩

/-- C8 (counterexample): `draw_bitmap` on the empty rectangle `x_start = x_end = 5` with a
buffer of 7 bytes returns `ESP_OK` and performs three transport writes. -/
theorem draw_bitmap_accepts_malformed_rectangle :
    ¬ (5 : Int) < 5 ∧
    (panel_st7735_draw_bitmap esp_idf (env_ok esp_idf) panel_rgb565 5 0 5 1
      [1, 2, 3, 4, 5, 6, 7] []).1 = esp_idf.ESP_OK ∧
    (panel_st7735_draw_bitmap esp_idf (env_ok esp_idf) panel_rgb565 5 0 5 1
      [1, 2, 3, 4, 5, 6, 7] []).2.2
      = [.tx_param 0 0x2a [0, 5, 0, 4], .tx_param 0 0x2b [0, 0, 0, 0],
         .tx_color 0 0x2c [1, 2, 3, 4, 5, 6, 7] 0] := by
  decide

/-- The result of `draw_bitmap`, written out: three writes, `ESP_OK`, the same driver object. -/
theorem draw_bitmap_eq (k : Headers) (env : Env) (st : st7735_panel_t)
    (x_start y_start x_end y_end : Int) (color_data : List Nat) (w : Trace) :
    panel_st7735_draw_bitmap k env st x_start y_start x_end y_end color_data w
      = (k.ESP_OK, st,
         w ++ [.tx_param st.io k.LCD_CMD_CASET
                 (draw_bitmap_window (int_add x_start st.x_gap) (int_add x_end st.x_gap)),
               .tx_param st.io k.LCD_CMD_RASET
                 (draw_bitmap_window (int_add y_start st.y_gap) (int_add y_end st.y_gap)),
               .tx_color st.io k.LCD_CMD_RAMWR color_data
                 (draw_bitmap_len st (int_add x_start st.x_gap) (int_add y_start st.y_gap)
                   (int_add x_end st.x_gap) (int_add y_end st.y_gap))]) := by
  simp [panel_st7735_draw_bitmap, esp_lcd_panel_io_tx_param, esp_lcd_panel_io_tx_color, call]

/-- C8 (amended): `draw_bitmap` validates nothing: for every driver state, every rectangle
(well-formed or not) and every buffer it returns `ESP_OK`, leaves the driver unchanged and
performs exactly three transport writes: CASET, RASET and one RAMWR transfer of the
caller's buffer. -/
theorem draw_bitmap_never_rejects (k : Headers) (env : Env) (st : st7735_panel_t)
    (x_start y_start x_end y_end : Int) (color_data : List Nat) (w : Trace) :
    panel_st7735_draw_bitmap k env st x_start y_start x_end y_end color_data w
      = (k.ESP_OK, st,
         w ++ [.tx_param st.io k.LCD_CMD_CASET
                 (draw_bitmap_window (int_add x_start st.x_gap) (int_add x_end st.x_gap)),
               .tx_param st.io k.LCD_CMD_RASET
                 (draw_bitmap_window (int_add y_start st.y_gap) (int_add y_end st.y_gap)),
               .tx_color st.io k.LCD_CMD_RAMWR color_data
                 (draw_bitmap_len st (int_add x_start st.x_gap) (int_add y_start st.y_gap)
                   (int_add x_end st.x_gap) (int_add y_end st.y_gap))]) :=
  draw_bitmap_eq k env st x_start y_start x_end y_end color_data w

/-- When memory is available and the reset pin is configured without error, construction is
the two `switch` statements run on the zeroed object. -/
theorem new_panel_of_resources (k : Headers) (env : Env) (io : Nat)
    (cfg : esp_lcd_panel_dev_config_t) (w : Trace)
    (hmem : env.calloc_ok = true)
    (hgpio : cfg.reset_gpio_num ≥ 0 →
      env.ret w (.gpio_config k.GPIO_MODE_OUTPUT (2 ^ cfg.reset_gpio_num.toNat % 2 ^ 64))
        = k.ESP_OK) :
    esp_lcd_new_panel_st7735 k env io cfg w
      = new_panel_color_space k env io cfg calloc_panel (after_gpio_config k cfg w) := by
  unfold esp_lcd_new_panel_st7735 after_gpio_config
  rw [hmem]
  by_cases hn : cfg.reset_gpio_num ≥ 0
  · have hg := hgpio hn
    simp only [Bool.not_true, Bool.false_eq_true, if_false, if_pos hn, call, hg, ne_eq,
      not_true_eq_false]
  · simp only [Bool.not_true, Bool.false_eq_true, if_false, if_neg hn]

/-- What a construction that hands out a driver object has done: it returned `ESP_OK`, the
colour order and pixel width are supported, and the object is the zeroed one with the
fields the two `switch` statements and the final assignments set. -/
theorem new_panel_some (k : Headers) (env : Env) (io : Nat)
    (cfg : esp_lcd_panel_dev_config_t) (w w' : Trace) (rc : Int) (st : st7735_panel_t)
    (h : esp_lcd_new_panel_st7735 k env io cfg w = (rc, some st, w')) :
    rc = k.ESP_OK ∧
    (cfg.color_space = k.ESP_LCD_COLOR_SPACE_RGB ∨
      cfg.color_space = k.ESP_LCD_COLOR_SPACE_BGR) ∧
    (cfg.bits_per_pixel = 16 ∨ cfg.bits_per_pixel = 18) ∧
    st = { io := io, reset_gpio_num := cfg.reset_gpio_num,
           reset_level := cfg.reset_active_high, x_gap := 0, y_gap := 0,
           fb_bits_per_pixel := if cfg.bits_per_pixel = 16 then 16 else 24,
           madctl_val := if cfg.color_space = k.ESP_LCD_COLOR_SPACE_RGB then 0
             else u8_or_assign 0 k.LCD_CMD_BGR_BIT,
           colmod_cal := if cfg.bits_per_pixel = 16 then 0x55 else 0x66 } := by
  unfold esp_lcd_new_panel_st7735 new_panel_color_space new_panel_pixel_width new_panel_fill
    new_panel_err at h
  simp only [calloc_panel] at h
  split_ifs at h <;> simp_all

/-- An `int` in the range of `int` is its own 32-bit value. -/
theorem wrap32_of_range (x : Int) (h0 : -2 ^ 31 ≤ x) (h1 : x < 2 ^ 31) : wrap32 x = x := by
  unfold wrap32
  norm_num at h0 h1 ⊢
  omega

/-- On a value from 0 to 255 the conversion to `uint8_t` changes nothing. -/
theorem to_uint8_of_byte (v : Int) (h0 : 0 ≤ v) (h1 : v ≤ 255) : to_uint8 v = v.toNat := by
  unfold to_uint8
  congr 1
  omega

/-- The bitwise AND of a non-negative `int` with `0xff` is its remainder modulo 256. -/
theorem land_ff_of_nonneg (v : Int) (h0 : 0 ≤ v) : Int.land v 0xff = v % 256 := by
  obtain ⟨n, rfl⟩ := Int.eq_ofNat_of_zero_le h0
  have h : Int.land (n : Int) ((255 : Nat) : Int) = ((n &&& 255 : Nat) : Int) := rfl
  have h2 : n &&& 255 = n % 256 := Nat.and_pow_two_sub_one_eq_mod n 8
  show Int.land (n : Int) ((255 : Nat) : Int) = _
  rw [h, h2]
  norm_cast

/-- The 16-bit big-endian encoding of a value from 0 to 255 is a zero byte and the value. -/
theorem spec_hi_lo_of_byte (v : Int) (h0 : 0 ≤ v) (h1 : v ≤ 255) :
    spec_hi v = 0 ∧ spec_lo v = v.toNat := by
  have hs : v >>> (8 : Nat) = 0 := by
    rw [Int.shiftRight_eq_div_pow]
    norm_num
    omega
  unfold spec_hi spec_lo
  rw [hs, land_ff_of_nonneg v h0]
  refine ⟨by decide, ?_⟩
  congr 1
  omega

/-- C3 (counterexample): with memory available and no reset line, a configuration with
24 bits per pixel (RGB order) is refused with `ESP_ERR_NOT_SUPPORTED`, and one with 18 bits
per pixel is accepted. -/
theorem new_panel_refuses_24_accepts_18 :
    esp_lcd_new_panel_st7735 esp_idf (env_ok esp_idf) 0 ⟨-1, 0, 24, false⟩ []
      = (esp_idf.ESP_ERR_NOT_SUPPORTED, none, []) ∧
    esp_idf.ESP_ERR_NOT_SUPPORTED ≠ esp_idf.ESP_OK ∧
    (esp_lcd_new_panel_st7735 esp_idf (env_ok esp_idf) 0 ⟨-1, 0, 18, false⟩ []).1
      = esp_idf.ESP_OK := by
  decide

/-- C3 (amended): when memory allocation and the configuration of the reset pin succeed,
construction fails with `ESP_ERR_NOT_SUPPORTED` if and only if `bits_per_pixel` is neither
16 nor 18 or `color_space` is neither RGB nor BGR; for `bits_per_pixel` 16 or 18 with a
recognised colour order it returns `ESP_OK` and a driver instance. -/
theorem new_panel_not_supported_iff (k : Headers) (env : Env) (io : Nat)
    (cfg : esp_lcd_panel_dev_config_t) (w : Trace)
    (hk : k.ESP_OK ≠ k.ESP_ERR_NOT_SUPPORTED)
    (hmem : env.calloc_ok = true)
    (hgpio : cfg.reset_gpio_num ≥ 0 →
      env.ret w (.gpio_config k.GPIO_MODE_OUTPUT (2 ^ cfg.reset_gpio_num.toNat % 2 ^ 64))
        = k.ESP_OK) :
    ((esp_lcd_new_panel_st7735 k env io cfg w).1 = k.ESP_ERR_NOT_SUPPORTED ↔
      (cfg.bits_per_pixel ≠ 16 ∧ cfg.bits_per_pixel ≠ 18) ∨
      (cfg.color_space ≠ k.ESP_LCD_COLOR_SPACE_RGB ∧
        cfg.color_space ≠ k.ESP_LCD_COLOR_SPACE_BGR)) ∧
    ((cfg.bits_per_pixel = 16 ∨ cfg.bits_per_pixel = 18) →
      (cfg.color_space = k.ESP_LCD_COLOR_SPACE_RGB ∨
        cfg.color_space = k.ESP_LCD_COLOR_SPACE_BGR) →
      (esp_lcd_new_panel_st7735 k env io cfg w).1 = k.ESP_OK ∧
      (esp_lcd_new_panel_st7735 k env io cfg w).2.1.isSome = true) := by
  rw [new_panel_of_resources k env io cfg w hmem hgpio]
  unfold new_panel_color_space new_panel_pixel_width new_panel_fill new_panel_err
  have hk' := Ne.symm hk
  split_ifs with h1 h2 h3 h4 h5 h6 <;> simp_all

/-- C3 (witness): the amended statement at 18 bits per pixel, BGR order, reset line 4. -/
theorem new_panel_not_supported_iff_witness :
    ((esp_lcd_new_panel_st7735 esp_idf (env_ok esp_idf) 0 ⟨4, 1, 18, true⟩ []).1
        = esp_idf.ESP_ERR_NOT_SUPPORTED ↔
      ((18 : Int) ≠ 16 ∧ (18 : Int) ≠ 18) ∨
      ((1 : Int) ≠ esp_idf.ESP_LCD_COLOR_SPACE_RGB ∧
        (1 : Int) ≠ esp_idf.ESP_LCD_COLOR_SPACE_BGR)) ∧
    (((18 : Int) = 16 ∨ (18 : Int) = 18) →
      ((1 : Int) = esp_idf.ESP_LCD_COLOR_SPACE_RGB ∨
        (1 : Int) = esp_idf.ESP_LCD_COLOR_SPACE_BGR) →
      (esp_lcd_new_panel_st7735 esp_idf (env_ok esp_idf) 0 ⟨4, 1, 18, true⟩ []).1
        = esp_idf.ESP_OK ∧
      (esp_lcd_new_panel_st7735 esp_idf (env_ok esp_idf) 0 ⟨4, 1, 18, true⟩ []).2.1.isSome
        = true) :=
  new_panel_not_supported_iff esp_idf (env_ok esp_idf) 0 ⟨4, 1, 18, true⟩ [] (by decide) rfl
    (fun _ => rfl)

/-- The result of `init`, written out. -/
theorem init_eq (k : Headers) (env : Env) (st : st7735_panel_t) (w : Trace) :
    panel_st7735_init k env st w
      = (k.ESP_OK, st,
         w ++ [.tx_param st.io k.LCD_CMD_SWRESET [], .delay_ms 150,
               .tx_param st.io k.LCD_CMD_SLPOUT [], .delay_ms 255,
               .tx_param st.io 0xb1 [0x01, 0x2c, 0x2d],
               .tx_param st.io 0xb2 [0x01, 0x2c, 0x2d],
               .tx_param st.io 0xb3 [0x01, 0x2c, 0x2d, 0x01, 0x2c, 0x2d],
               .tx_param st.io 0xb4 [0x07],
               .tx_param st.io 0xc0 [0xa2, 0x02, 0x84],
               .tx_param st.io 0xc1 [0xc5],
               .tx_param st.io 0xc2 [0x0a, 0x00],
               .tx_param st.io 0xc3 [0x8a, 0x2a],
               .tx_param st.io 0xc4 [0x8a, 0xee],
               .tx_param st.io 0xc5 [0x0e],
               .tx_param st.io k.LCD_CMD_INVOFF [],
               .tx_param st.io k.LCD_CMD_MADCTL [st.madctl_val],
               .tx_param st.io k.LCD_CMD_COLMOD [st.colmod_cal],
               .tx_param st.io k.LCD_CMD_CASET
                 [0x00, to_uint8 st.x_gap, 0x00, to_uint8 (int_add 0x7f st.x_gap)],
               .tx_param st.io k.LCD_CMD_RASET
                 [0x00, to_uint8 st.y_gap, 0x00, to_uint8 (int_add 0x9f st.y_gap)],
               .tx_param st.io 0xe0
                 [0x02, 0x1c, 0x07, 0x12, 0x37, 0x32, 0x29, 0x2d,
                  0x29, 0x25, 0x2b, 0x39, 0x00, 0x01, 0x03, 0x10],
               .tx_param st.io 0xe1
                 [0x03, 0x1d, 0x07, 0x06, 0x2e, 0x2c, 0x29, 0x2d,
                  0x2e, 0x2e, 0x37, 0x3f, 0x00, 0x00, 0x02, 0x10],
               .tx_param st.io k.LCD_CMD_NORON [], .delay_ms 10,
               .tx_param st.io k.LCD_CMD_DISPON [], .delay_ms 100]) := by
  simp only [panel_st7735_init, esp_lcd_panel_io_tx_param, call, vTaskDelay_ms,
    List.append_assoc, List.cons_append, List.nil_append]
  rfl

/-- C5: for every driver state and whatever the transport answers, `init` returns `ESP_OK`,
leaves the driver object unchanged and appends exactly this trace: 21 commands and 4
delays, in which only the MADCTL, COLMOD, CASET and RASET parameters depend on the state. -/
theorem init_emits_fixed_sequence (k : Headers) (env : Env) (st : st7735_panel_t)
    (w : Trace) :
    panel_st7735_init k env st w
      = (k.ESP_OK, st,
         w ++ [.tx_param st.io k.LCD_CMD_SWRESET [], .delay_ms 150,
               .tx_param st.io k.LCD_CMD_SLPOUT [], .delay_ms 255,
               .tx_param st.io 0xb1 [0x01, 0x2c, 0x2d],
               .tx_param st.io 0xb2 [0x01, 0x2c, 0x2d],
               .tx_param st.io 0xb3 [0x01, 0x2c, 0x2d, 0x01, 0x2c, 0x2d],
               .tx_param st.io 0xb4 [0x07],
               .tx_param st.io 0xc0 [0xa2, 0x02, 0x84],
               .tx_param st.io 0xc1 [0xc5],
               .tx_param st.io 0xc2 [0x0a, 0x00],
               .tx_param st.io 0xc3 [0x8a, 0x2a],
               .tx_param st.io 0xc4 [0x8a, 0xee],
               .tx_param st.io 0xc5 [0x0e],
               .tx_param st.io k.LCD_CMD_INVOFF [],
               .tx_param st.io k.LCD_CMD_MADCTL [st.madctl_val],
               .tx_param st.io k.LCD_CMD_COLMOD [st.colmod_cal],
               .tx_param st.io k.LCD_CMD_CASET
                 [0x00, to_uint8 st.x_gap, 0x00, to_uint8 (int_add 0x7f st.x_gap)],
               .tx_param st.io k.LCD_CMD_RASET
                 [0x00, to_uint8 st.y_gap, 0x00, to_uint8 (int_add 0x9f st.y_gap)],
               .tx_param st.io 0xe0
                 [0x02, 0x1c, 0x07, 0x12, 0x37, 0x32, 0x29, 0x2d,
                  0x29, 0x25, 0x2b, 0x39, 0x00, 0x01, 0x03, 0x10],
               .tx_param st.io 0xe1
                 [0x03, 0x1d, 0x07, 0x06, 0x2e, 0x2c, 0x29, 0x2d,
                  0x2e, 0x2e, 0x37, 0x3f, 0x00, 0x00, 0x02, 0x10],
               .tx_param st.io k.LCD_CMD_NORON [], .delay_ms 10,
               .tx_param st.io k.LCD_CMD_DISPON [], .delay_ms 100]) ∧
    ((emitted w (panel_st7735_init k env st w).2.2).filter Event.is_tx).length = 21 ∧
    ((emitted w (panel_st7735_init k env st w).2.2).filter Event.is_delay).length = 4 ∧
    (emitted w (panel_st7735_init k env st w).2.2).length = 25 := by
  have h : ∀ t : Trace, emitted w (w ++ t) = t := fun t => by simp [emitted]
  refine ⟨init_eq k env st w, ?_, ?_, ?_⟩ <;> rw [init_eq k env st w, h] <;> rfl

/-- C6 (counterexample): after `set_gap(256, 256)` the window of `init` is `[0, 0, 0, 0x7f]`
for the columns and `[0, 0, 0, 0x9f]` for the rows, while the 16-bit big-endian encoding of
start 256 and end `0x7f + 256`, `0x9f + 256` has the high bytes 1. -/
theorem init_window_drops_high_byte :
    (panel_st7735_init esp_idf (env_ok esp_idf)
        (panel_st7735_set_gap esp_idf panel_rgb565 256 256 []).2.1 []).2.2[17]?
      = some (.tx_param 0 esp_idf.LCD_CMD_CASET [0, 0, 0, 0x7f]) ∧
    (panel_st7735_init esp_idf (env_ok esp_idf)
        (panel_st7735_set_gap esp_idf panel_rgb565 256 256 []).2.1 []).2.2[18]?
      = some (.tx_param 0 esp_idf.LCD_CMD_RASET [0, 0, 0, 0x9f]) ∧
    spec_window 256 (0x7f + 256) = [1, 0, 1, 0x7f] ∧
    spec_window 256 (0x9f + 256) = [1, 0, 1, 0x9f] := by
  decide

/-- C6 (amended): for gaps stored by `set_gap` with `0 <= x_gap`, `0 <= y_gap` and both
window ends in one byte (`0x7f + x_gap <= 0xff`, `0x9f + y_gap <= 0xff`), the CASET command
of `init` (its 18th event) carries the 16-bit big-endian start `x_gap` and end
`0x7f + x_gap`, that is `[0, x_gap, 0, 0x7f + x_gap]`, and the RASET command (its 19th
event) carries start `y_gap` and end `0x9f + y_gap` in the same encoding. -/
theorem init_window_of_small_gaps (k : Headers) (env : Env) (st : st7735_panel_t)
    (w : Trace) (x_gap y_gap : Int)
    (hx0 : 0 ≤ x_gap) (hx : 0x7f + x_gap ≤ 0xff) (hy0 : 0 ≤ y_gap)
    (hy : 0x9f + y_gap ≤ 0xff) :
    (emitted w (panel_st7735_init k env
        (panel_st7735_set_gap k st x_gap y_gap w).2.1 w).2.2)[17]?
      = some (.tx_param st.io k.LCD_CMD_CASET (spec_window x_gap (0x7f + x_gap))) ∧
    (emitted w (panel_st7735_init k env
        (panel_st7735_set_gap k st x_gap y_gap w).2.1 w).2.2)[18]?
      = some (.tx_param st.io k.LCD_CMD_RASET (spec_window y_gap (0x9f + y_gap))) ∧
    spec_window x_gap (0x7f + x_gap) = [0, x_gap.toNat, 0, (0x7f + x_gap).toNat] ∧
    spec_window y_gap (0x9f + y_gap) = [0, y_gap.toNat, 0, (0x9f + y_gap).toNat] := by
  have h : ∀ t : Trace, emitted w (w ++ t) = t := fun t => by simp [emitted]
  have hwx : spec_window x_gap (0x7f + x_gap) = [0, x_gap.toNat, 0, (0x7f + x_gap).toNat] := by
    unfold spec_window
    rw [(spec_hi_lo_of_byte x_gap hx0 (by omega)).1, (spec_hi_lo_of_byte x_gap hx0 (by omega)).2,
      (spec_hi_lo_of_byte (0x7f + x_gap) (by omega) hx).1,
      (spec_hi_lo_of_byte (0x7f + x_gap) (by omega) hx).2]
  have hwy : spec_window y_gap (0x9f + y_gap) = [0, y_gap.toNat, 0, (0x9f + y_gap).toNat] := by
    unfold spec_window
    rw [(spec_hi_lo_of_byte y_gap hy0 (by omega)).1, (spec_hi_lo_of_byte y_gap hy0 (by omega)).2,
      (spec_hi_lo_of_byte (0x9f + y_gap) (by omega) hy).1,
      (spec_hi_lo_of_byte (0x9f + y_gap) (by omega) hy).2]
  have hax : int_add 0x7f x_gap = 0x7f + x_gap :=
    wrap32_of_range _ (by norm_num; omega) (by norm_num; omega)
  have hay : int_add 0x9f y_gap = 0x9f + y_gap :=
    wrap32_of_range _ (by norm_num; omega) (by norm_num; omega)
  refine ⟨?_, ?_, hwx, hwy⟩
  · rw [init_eq k env _ w, hwx]
    simp only [h, panel_st7735_set_gap, hax]
    rw [to_uint8_of_byte x_gap hx0 (by omega), to_uint8_of_byte _ (by omega) hx]
    rfl
  · rw [init_eq k env _ w, hwy]
    simp only [h, panel_st7735_set_gap, hay]
    rw [to_uint8_of_byte y_gap hy0 (by omega), to_uint8_of_byte _ (by omega) hy]
    rfl

/-- C6 (witness): the amended statement at the gaps (2, 3). -/
theorem init_window_of_small_gaps_witness :
    (emitted [] (panel_st7735_init esp_idf env_fail
        (panel_st7735_set_gap esp_idf panel_rgb565 2 3 []).2.1 []).2.2)[17]?
      = some (.tx_param panel_rgb565.io esp_idf.LCD_CMD_CASET (spec_window 2 (0x7f + 2))) ∧
    (emitted [] (panel_st7735_init esp_idf env_fail
        (panel_st7735_set_gap esp_idf panel_rgb565 2 3 []).2.1 []).2.2)[18]?
      = some (.tx_param panel_rgb565.io esp_idf.LCD_CMD_RASET (spec_window 3 (0x9f + 3))) ∧
    spec_window 2 (0x7f + 2) = [0, (2 : Int).toNat, 0, (0x7f + 2 : Int).toNat] ∧
    spec_window 3 (0x9f + 3) = [0, (3 : Int).toNat, 0, (0x9f + 3 : Int).toNat] :=
  init_window_of_small_gaps esp_idf env_fail panel_rgb565 [] 2 3 (by decide) (by decide)
    (by decide) (by decide)

/-- C9: when construction hands out a driver object, its `madctl_val` is exactly the
colour-order bit (0 for RGB, `LCD_CMD_BGR_BIT` for BGR), none of the MX, MY, MV bits is set
in it, and both gaps are 0. -/
theorem new_panel_madctl_is_color_bit (k : Headers) (env : Env) (io : Nat)
    (cfg : esp_lcd_panel_dev_config_t) (w w' : Trace) (rc : Int) (st : st7735_panel_t)
    (hbits : k.bits_ok)
    (hcs : k.ESP_LCD_COLOR_SPACE_RGB ≠ k.ESP_LCD_COLOR_SPACE_BGR)
    (h : esp_lcd_new_panel_st7735 k env io cfg w = (rc, some st, w')) :
    ((cfg.color_space = k.ESP_LCD_COLOR_SPACE_RGB ∧ st.madctl_val = 0) ∨
      (cfg.color_space = k.ESP_LCD_COLOR_SPACE_BGR ∧ st.madctl_val = k.LCD_CMD_BGR_BIT)) ∧
    st.madctl_val &&& k.LCD_CMD_MX_BIT = 0 ∧ st.madctl_val &&& k.LCD_CMD_MY_BIT = 0 ∧
    st.madctl_val &&& k.LCD_CMD_MV_BIT = 0 ∧
    st.x_gap = 0 ∧ st.y_gap = 0 := by
  obtain ⟨_, hc, _, rfl⟩ := new_panel_some k env io cfg w w' rc st h
  obtain ⟨_, _, _, hB, _, _, _, hBX, hBY, hBV⟩ := hbits
  have hor : u8_or_assign 0 k.LCD_CMD_BGR_BIT = k.LCD_CMD_BGR_BIT := by
    unfold u8_or_assign
    rw [Nat.zero_or]
    exact Nat.mod_eq_of_lt hB
  rcases hc with hc | hc
  · simp [hc]
  · have hne : ¬ k.ESP_LCD_COLOR_SPACE_BGR = k.ESP_LCD_COLOR_SPACE_RGB := fun e => hcs e.symm
    simp [hc, hne, hor, hBX, hBY, hBV]

/-- C9 (witness): BGR order, 18 bits per pixel, reset line 4. -/
theorem new_panel_madctl_is_color_bit_witness :
    esp_lcd_new_panel_st7735 esp_idf (env_ok esp_idf) 7 ⟨4, 1, 18, true⟩ []
      = (0, some panel_bgr666, [.gpio_config 2 16]) ∧
    (((1 : Int) = esp_idf.ESP_LCD_COLOR_SPACE_RGB ∧ panel_bgr666.madctl_val = 0) ∨
      ((1 : Int) = esp_idf.ESP_LCD_COLOR_SPACE_BGR ∧
        panel_bgr666.madctl_val = esp_idf.LCD_CMD_BGR_BIT)) ∧
    panel_bgr666.madctl_val &&& esp_idf.LCD_CMD_MX_BIT = 0 ∧
    panel_bgr666.madctl_val &&& esp_idf.LCD_CMD_MY_BIT = 0 ∧
    panel_bgr666.madctl_val &&& esp_idf.LCD_CMD_MV_BIT = 0 ∧
    panel_bgr666.x_gap = 0 ∧ panel_bgr666.y_gap = 0 :=
  ⟨by decide,
   new_panel_madctl_is_color_bit esp_idf (env_ok esp_idf) 7 ⟨4, 1, 18, true⟩ []
    [.gpio_config 2 16] 0 panel_bgr666 (by decide) (by decide) (by decide)⟩

/-- C10 (counterexample): a construction with 12 bits per pixel and the reset line 5 fails
with `ESP_ERR_NOT_SUPPORTED`, but it has configured GPIO 5 as an output before failing. -/
theorem new_panel_12_bits_configures_reset_pin :
    esp_lcd_new_panel_st7735 esp_idf (env_ok esp_idf) 0 ⟨5, 0, 12, false⟩ []
      = (esp_idf.ESP_ERR_NOT_SUPPORTED, none,
         [.gpio_config esp_idf.GPIO_MODE_OUTPUT (2 ^ 5), .gpio_reset_pin 5]) := by
  decide

/-- C10 (amended): when memory allocation and the configuration of the reset pin succeed,
a construction with 12 bits per pixel fails with `ESP_ERR_NOT_SUPPORTED` and returns no
driver instance; without a reset line it makes no call at all, and with a reset line its only
calls are the configuration of that pin followed by `gpio_reset_pin`, which releases it. -/
theorem new_panel_12_bits_releases_reset_pin (k : Headers) (env : Env) (io : Nat)
    (cfg : esp_lcd_panel_dev_config_t) (w : Trace)
    (hmem : env.calloc_ok = true)
    (hgpio : cfg.reset_gpio_num ≥ 0 →
      env.ret w (.gpio_config k.GPIO_MODE_OUTPUT (2 ^ cfg.reset_gpio_num.toNat % 2 ^ 64))
        = k.ESP_OK)
    (hbpp : cfg.bits_per_pixel = 12) :
    esp_lcd_new_panel_st7735 k env io cfg w
      = (k.ESP_ERR_NOT_SUPPORTED, none,
         if cfg.reset_gpio_num ≥ 0 then
           w ++ [.gpio_config k.GPIO_MODE_OUTPUT (2 ^ cfg.reset_gpio_num.toNat % 2 ^ 64),
                 .gpio_reset_pin cfg.reset_gpio_num]
         else w) := by
  rw [new_panel_of_resources k env io cfg w hmem hgpio]
  unfold new_panel_color_space new_panel_pixel_width new_panel_err after_gpio_config call
  have h16 : ¬ cfg.bits_per_pixel = 16 := by omega
  have h18 : ¬ cfg.bits_per_pixel = 18 := by omega
  by_cases hn : cfg.reset_gpio_num ≥ 0
  · simp only [if_pos hn, if_neg h16, if_neg h18, List.append_assoc, List.singleton_append]
    split_ifs <;> rfl
  · simp only [if_neg hn, if_neg h16, if_neg h18]
    split_ifs <;> rfl

/-- C10 (witness): 12 bits per pixel, BGR order, reset line 5. -/
theorem new_panel_12_bits_releases_reset_pin_witness :
    esp_lcd_new_panel_st7735 esp_idf (env_ok esp_idf) 0 ⟨5, 1, 12, false⟩ []
      = (esp_idf.ESP_ERR_NOT_SUPPORTED, none,
         if (5 : Int) ≥ 0 then
           [] ++ [.gpio_config esp_idf.GPIO_MODE_OUTPUT (2 ^ (5 : Int).toNat % 2 ^ 64),
                 .gpio_reset_pin 5]
         else []) :=
  new_panel_12_bits_releases_reset_pin esp_idf (env_ok esp_idf) 0 ⟨5, 1, 12, false⟩ [] rfl
    (fun _ => rfl) rfl

/-- The gap shift cancels in the difference of two shifted coordinates. -/
theorem int_sub_int_add_gap (a b g : Int) (h0 : 0 < a - b) (h1 : a - b < 2 ^ 31) :
    int_sub (int_add a g) (int_add b g) = a - b := by
  unfold int_sub int_add wrap32
  norm_num at h1 ⊢
  omega

/-- The `len` of `draw_bitmap` when the product does not overflow and the frame buffer
width is a whole number `n` of bytes. -/
theorem draw_bitmap_len_of_bytes (st : st7735_panel_t) (xs ys xe ye : Int) (n : Nat)
    (hfb : st.fb_bits_per_pixel = 8 * n) (hn : 0 < n)
    (hx : xs < xe) (hy : ys < ye)
    (hov : (xe - xs) * (ye - ys) * (st.fb_bits_per_pixel : Int) < 2 ^ 31) :
    draw_bitmap_len st (int_add xs st.x_gap) (int_add ys st.y_gap) (int_add xe st.x_gap)
      (int_add ye st.y_gap) = ((xe - xs) * (ye - ys) * n).toNat := by
  have hdx : 0 < xe - xs := by omega
  have hdy : 0 < ye - ys := by omega
  have hP : 0 < (xe - xs) * (ye - ys) := Int.mul_pos hdx hdy
  have hPx : xe - xs ≤ (xe - xs) * (ye - ys) := by nlinarith
  have hPy : ye - ys ≤ (xe - xs) * (ye - ys) := by nlinarith
  have hfb' : (st.fb_bits_per_pixel : Int) = 8 * (n : Int) := by rw [hfb]; push_cast; ring
  rw [hfb'] at hov
  have hn' : (1 : Int) ≤ n := by exact_mod_cast hn
  have hPn : (xe - xs) * (ye - ys) ≤ (xe - xs) * (ye - ys) * n := by nlinarith
  have hov' : (xe - xs) * (ye - ys) * n * 8 < 2 ^ 31 := by linarith
  unfold draw_bitmap_len
  rw [int_sub_int_add_gap xe xs st.x_gap hdx (by norm_num at hov' ⊢; omega),
    int_sub_int_add_gap ye ys st.y_gap hdy (by norm_num at hov' ⊢; omega), hfb']
  unfold int_mul
  generalize (xe - xs) * (ye - ys) = P at *
  generalize hQ : P * (n : Int) = Q at *
  rw [wrap32_of_range P (by norm_num; omega) (by norm_num at hov' ⊢; omega),
    show P * (8 * (n : Int)) = Q * 8 by rw [← hQ]; ring,
    wrap32_of_range _ (by norm_num; omega) hov', Int.shiftRight_eq_div_pow]
  unfold to_size_t
  congr 1
  norm_num at hov' ⊢
  omega

/-- C7: on a driver produced by a successful construction, for every pair of gaps and every
rectangle with `x_start < x_end`, `y_start < y_end` whose product with `fb_bits_per_pixel`
does not overflow an `int`, the RAMWR transfer of `draw_bitmap` (its third and last write)
has the length `(x_end - x_start) * (y_end - y_start) * bytes_per_pixel`, with 2 bytes per
pixel for the RGB565 configuration (`bits_per_pixel` 16) and 3 for RGB666 (18); the gaps do
not occur in it. -/
theorem draw_bitmap_len_is_area_times_bytes (k : Headers) (env : Env) (io : Nat)
    (cfg : esp_lcd_panel_dev_config_t) (w0 w1 : Trace) (rc : Int) (st0 : st7735_panel_t)
    (hnew : esp_lcd_new_panel_st7735 k env io cfg w0 = (rc, some st0, w1))
    (x_gap y_gap x_start y_start x_end y_end : Int) (color_data : List Nat) (w : Trace)
    (hx : x_start < x_end) (hy : y_start < y_end)
    (hov : (x_end - x_start) * (y_end - y_start) * (st0.fb_bits_per_pixel : Int) < 2 ^ 31) :
    (panel_st7735_draw_bitmap k env (panel_st7735_set_gap k st0 x_gap y_gap w).2.1
        x_start y_start x_end y_end color_data w).2.2
      = w ++ [.tx_param io k.LCD_CMD_CASET
                (draw_bitmap_window (int_add x_start x_gap) (int_add x_end x_gap)),
              .tx_param io k.LCD_CMD_RASET
                (draw_bitmap_window (int_add y_start y_gap) (int_add y_end y_gap)),
              .tx_color io k.LCD_CMD_RAMWR color_data
                ((x_end - x_start) * (y_end - y_start) *
                  (if cfg.bits_per_pixel = 16 then 2 else 3)).toNat] := by
  obtain ⟨_, _, hb, hst⟩ := new_panel_some k env io cfg w0 w1 rc st0 hnew
  have hio : st0.io = io := by rw [hst]
  have hlen := draw_bitmap_len_of_bytes
    (panel_st7735_set_gap k st0 x_gap y_gap w).2.1 x_start y_start x_end y_end
    (if cfg.bits_per_pixel = 16 then 2 else 3)
    (by rw [hst]; simp only [panel_st7735_set_gap]; split_ifs <;> rfl)
    (by split_ifs <;> decide) hx hy hov
  rw [draw_bitmap_eq]
  simp only [panel_st7735_set_gap] at hlen ⊢
  rw [hlen, hio]
  split_ifs <;> rfl

/-- C7 (witness): the RGB666 driver, gaps (1, 2), the rectangle from (0, 0) to (4, 5). -/
theorem draw_bitmap_len_is_area_times_bytes_witness :
    (panel_st7735_draw_bitmap esp_idf (env_ok esp_idf)
        (panel_st7735_set_gap esp_idf panel_bgr666 1 2 []).2.1 0 0 4 5 [9] []).2.2
      = [] ++ [.tx_param 7 esp_idf.LCD_CMD_CASET
                (draw_bitmap_window (int_add 0 1) (int_add 4 1)),
              .tx_param 7 esp_idf.LCD_CMD_RASET
                (draw_bitmap_window (int_add 0 2) (int_add 5 2)),
              .tx_color 7 esp_idf.LCD_CMD_RAMWR [9]
                ((4 - 0) * (5 - 0) * (if (18 : Int) = 16 then 2 else 3) : Int).toNat] :=
  draw_bitmap_len_is_area_times_bytes esp_idf (env_ok esp_idf) 7 ⟨4, 1, 18, true⟩ []
    [.gpio_config 2 16] 0 panel_bgr666 (by decide) 1 2 0 0 4 5 [9] [] (by decide) (by decide)
    (by decide)

/-- Two disjoint masks have no bit in common. -/
theorem testBit_of_and_eq_zero (x y i : Nat) (h : x &&& y = 0) :
    (x.testBit i && y.testBit i) = false := by
  rw [← Nat.testBit_and, h, Nat.zero_testBit]

/-- The bits of `v |= b` on bytes. -/
theorem testBit_u8_or_assign (v b i : Nat) (hv : v < 256) (hb : b < 256) :
    (u8_or_assign v b).testBit i = (v.testBit i || b.testBit i) := by
  unfold u8_or_assign
  rw [Nat.mod_eq_of_lt (Nat.or_lt_two_pow (n := 8) hv hb), Nat.testBit_or]

/-- The bits of `v &= ~b` on bytes. -/
theorem testBit_u8_and_not_assign (v b i : Nat) (hv : v < 256) (hb : b < 256) :
    (u8_and_not_assign v b).testBit i = (v.testBit i && !b.testBit i) := by
  unfold u8_and_not_assign bit_not32
  have hb32 : b < 2 ^ 32 := by omega
  have h1 : v &&& (2 ^ 32 - 1 - b % 2 ^ 32) ≤ v := Nat.and_le_left
  rw [Nat.mod_eq_of_lt (by omega), Nat.testBit_and, Nat.mod_eq_of_lt hb32,
    show 2 ^ 32 - 1 - b = 2 ^ 32 - (b + 1) by omega, Nat.testBit_two_pow_sub_succ hb32]
  by_cases hi : i < 32
  · simp [hi]
  · have : v.testBit i = false := by
      apply Nat.testBit_lt_two_pow
      calc v < 2 ^ 8 := hv
        _ ≤ 2 ^ i := Nat.pow_le_pow_right (by decide) (by omega)
    simp [this]

/-- A `uint8_t` store leaves a byte. -/
theorem u8_or_assign_lt (v b : Nat) : u8_or_assign v b < 256 := Nat.mod_lt _ (by decide)

/-- A `uint8_t` store leaves a byte. -/
theorem u8_and_not_assign_lt (v b : Nat) : u8_and_not_assign v b < 256 :=
  Nat.mod_lt _ (by decide)

/-- The bits of the register value of C4. -/
theorem testBit_orientation_value (k : Headers) (cb : Nat) (a b c : Bool) (i : Nat) :
    (orientation_value k cb a b c).testBit i
      = (cb.testBit i || (a && k.LCD_CMD_MX_BIT.testBit i) ||
          (b && k.LCD_CMD_MY_BIT.testBit i) || (c && k.LCD_CMD_MV_BIT.testBit i)) := by
  unfold orientation_value
  cases a <;> cases b <;> cases c <;> simp

/-- The register value of C4 is a byte. -/
theorem orientation_value_lt (k : Headers) (hbits : k.bits_ok) (cb : Nat) (hcb : cb < 256)
    (a b c : Bool) : orientation_value k cb a b c < 256 := by
  obtain ⟨hX, hY, hV, _⟩ := hbits
  unfold orientation_value
  have h0 : (0 : Nat) < 2 ^ 8 := by decide
  refine Nat.or_lt_two_pow (n := 8) (Nat.or_lt_two_pow (Nat.or_lt_two_pow hcb ?_) ?_) ?_
  · split_ifs; exacts [hX, h0]
  · split_ifs; exacts [hY, h0]
  · split_ifs; exacts [hV, h0]

/-- Setting or clearing two disjoint masks, bit by bit. -/
theorem bool_mirror : ∀ (a b c mx my X Y V C : Bool),
    (X && Y) = false → (X && V) = false → (Y && V) = false →
    (C && X) = false → (C && Y) = false → (C && V) = false →
    ((bif my then ((bif mx then ((C || (a && X) || (b && Y) || (c && V)) || X)
        else ((C || (a && X) || (b && Y) || (c && V)) && !X)) || Y)
      else ((bif mx then ((C || (a && X) || (b && Y) || (c && V)) || X)
        else ((C || (a && X) || (b && Y) || (c && V)) && !X)) && !Y))
      = (C || (mx && X) || (my && Y) || (c && V))) := by
  decide

/-- Setting or clearing one mask disjoint from the others, bit by bit. -/
theorem bool_swap : ∀ (a b c sv X Y V C : Bool),
    (X && V) = false → (Y && V) = false → (C && V) = false →
    ((bif sv then ((C || (a && X) || (b && Y) || (c && V)) || V)
        else ((C || (a && X) || (b && Y) || (c && V)) && !V))
      = (C || (a && X) || (b && Y) || (sv && V))) := by
  decide

/-- What `mirror` stores when the register held a value of the form of C4. -/
theorem mirror_madctl (k : Headers) (env : Env) (st : st7735_panel_t) (w : Trace)
    (hbits : k.bits_ok) (cb : Nat) (hcb : cb = 0 ∨ cb = k.LCD_CMD_BGR_BIT) (a b c mx my : Bool)
    (hst : st.madctl_val = orientation_value k cb a b c) :
    (panel_st7735_mirror k env st mx my w).2.1.madctl_val
      = orientation_value k cb mx my c := by
  have hcb256 : cb < 256 := by
    rcases hcb with h | h
    · rw [h]; decide
    · rw [h]; exact hbits.2.2.2.1
  have hv := orientation_value_lt k hbits cb hcb256 a b c
  obtain ⟨hX, hY, hV, hB, hXY, hXV, hYV, hBX, hBY, hBV⟩ := hbits
  have hCX : cb &&& k.LCD_CMD_MX_BIT = 0 := by
    rcases hcb with h | h
    · rw [h, Nat.zero_and]
    · rw [h]; exact hBX
  have hCY : cb &&& k.LCD_CMD_MY_BIT = 0 := by
    rcases hcb with h | h
    · rw [h, Nat.zero_and]
    · rw [h]; exact hBY
  have hCV : cb &&& k.LCD_CMD_MV_BIT = 0 := by
    rcases hcb with h | h
    · rw [h, Nat.zero_and]
    · rw [h]; exact hBV
  apply Nat.eq_of_testBit_eq
  intro i
  rw [testBit_orientation_value]
  have key := bool_mirror a b c mx my (k.LCD_CMD_MX_BIT.testBit i) (k.LCD_CMD_MY_BIT.testBit i)
    (k.LCD_CMD_MV_BIT.testBit i) (cb.testBit i)
    (testBit_of_and_eq_zero _ _ i hXY) (testBit_of_and_eq_zero _ _ i hXV)
    (testBit_of_and_eq_zero _ _ i hYV) (testBit_of_and_eq_zero _ _ i hCX)
    (testBit_of_and_eq_zero _ _ i hCY) (testBit_of_and_eq_zero _ _ i hCV)
  rw [← key]
  unfold panel_st7735_mirror
  cases mx <;> cases my <;>
    simp only [Bool.false_eq_true, if_false, if_true, cond_true, cond_false, hst] <;>
    first
      | rw [testBit_u8_or_assign _ _ _ (u8_or_assign_lt _ _) hY,
          testBit_u8_or_assign _ _ _ hv hX, testBit_orientation_value]
      | rw [testBit_u8_or_assign _ _ _ (u8_and_not_assign_lt _ _) hY,
          testBit_u8_and_not_assign _ _ _ hv hX, testBit_orientation_value]
      | rw [testBit_u8_and_not_assign _ _ _ (u8_or_assign_lt _ _) hY,
          testBit_u8_or_assign _ _ _ hv hX, testBit_orientation_value]
      | rw [testBit_u8_and_not_assign _ _ _ (u8_and_not_assign_lt _ _) hY,
          testBit_u8_and_not_assign _ _ _ hv hX, testBit_orientation_value]

/-- What `swap_xy` stores when the register held a value of the form of C4. -/
theorem swap_xy_madctl (k : Headers) (env : Env) (st : st7735_panel_t) (w : Trace)
    (hbits : k.bits_ok) (cb : Nat) (hcb : cb = 0 ∨ cb = k.LCD_CMD_BGR_BIT) (a b c sv : Bool)
    (hst : st.madctl_val = orientation_value k cb a b c) :
    (panel_st7735_swap_xy k env st sv w).2.1.madctl_val
      = orientation_value k cb a b sv := by
  have hcb256 : cb < 256 := by
    rcases hcb with h | h
    · rw [h]; decide
    · rw [h]; exact hbits.2.2.2.1
  have hv := orientation_value_lt k hbits cb hcb256 a b c
  obtain ⟨hX, hY, hV, hB, hXY, hXV, hYV, hBX, hBY, hBV⟩ := hbits
  have hCV : cb &&& k.LCD_CMD_MV_BIT = 0 := by
    rcases hcb with h | h
    · rw [h, Nat.zero_and]
    · rw [h]; exact hBV
  apply Nat.eq_of_testBit_eq
  intro i
  rw [testBit_orientation_value]
  have key := bool_swap a b c sv (k.LCD_CMD_MX_BIT.testBit i) (k.LCD_CMD_MY_BIT.testBit i)
    (k.LCD_CMD_MV_BIT.testBit i) (cb.testBit i)
    (testBit_of_and_eq_zero _ _ i hXV) (testBit_of_and_eq_zero _ _ i hYV)
    (testBit_of_and_eq_zero _ _ i hCV)
  rw [← key]
  unfold panel_st7735_swap_xy
  cases sv <;>
    simp only [Bool.false_eq_true, if_false, if_true, cond_true, cond_false, hst] <;>
    first
      | rw [testBit_u8_or_assign _ _ _ hv hV, testBit_orientation_value]
      | rw [testBit_u8_and_not_assign _ _ _ hv hV, testBit_orientation_value]

/-- The trace and transport handle after `mirror`. -/
theorem mirror_trace (k : Headers) (env : Env) (st : st7735_panel_t) (mx my : Bool)
    (w : Trace) :
    (panel_st7735_mirror k env st mx my w).2.2
      = w ++ [.tx_param st.io k.LCD_CMD_MADCTL
          [(panel_st7735_mirror k env st mx my w).2.1.madctl_val]] ∧
    (panel_st7735_mirror k env st mx my w).2.1.io = st.io := by
  cases mx <;> cases my <;> exact ⟨rfl, rfl⟩

/-- The trace and transport handle after `swap_xy`. -/
theorem swap_xy_trace (k : Headers) (env : Env) (st : st7735_panel_t) (sv : Bool)
    (w : Trace) :
    (panel_st7735_swap_xy k env st sv w).2.2
      = w ++ [.tx_param st.io k.LCD_CMD_MADCTL
          [(panel_st7735_swap_xy k env st sv w).2.1.madctl_val]] ∧
    (panel_st7735_swap_xy k env st sv w).2.1.io = st.io := by
  cases sv <;> exact ⟨rfl, rfl⟩

/-- Every operation keeps the invariant of the orientation register. -/
theorem run_preserves_orientation_inv (k : Headers) (env : Env) (hbits : k.bits_ok)
    (cb io : Nat) (hcb : cb = 0 ∨ cb = k.LCD_CMD_BGR_BIT) (op : PanelOp)
    (st : st7735_panel_t) (w : Trace) (h : orientation_inv k cb io st) :
    orientation_inv k cb io (op.run k env st w).2.1 := by
  obtain ⟨hio, a, b, c, hst⟩ := h
  cases op with
  | mirror mx my =>
    exact ⟨(mirror_trace k env st mx my w).2.trans hio, mx, my, c,
      mirror_madctl k env st w hbits cb hcb a b c mx my hst⟩
  | swap_xy sv =>
    exact ⟨(swap_xy_trace k env st sv w).2.trans hio, a, b, sv,
      swap_xy_madctl k env st w hbits cb hcb a b c sv hst⟩
  | _ => exact ⟨hio, a, b, c, hst⟩

/-- Every sequence of operations keeps the invariant of the orientation register. -/
theorem run_ops_preserves_orientation_inv (k : Headers) (env : Env) (hbits : k.bits_ok)
    (cb io : Nat) (hcb : cb = 0 ∨ cb = k.LCD_CMD_BGR_BIT) (ops : List PanelOp) :
    ∀ (st : st7735_panel_t) (w : Trace), orientation_inv k cb io st →
      orientation_inv k cb io (run_ops k env ops st w).1 := by
  induction ops with
  | nil => intro st w h; exact h
  | cons op ops ih =>
    intro st w h
    exact ih _ _ (run_preserves_orientation_inv k env hbits cb io hcb op st w h)

/-- A freshly constructed driver satisfies the invariant of the orientation register. -/
theorem new_panel_orientation_inv (k : Headers) (env : Env) (io : Nat)
    (cfg : esp_lcd_panel_dev_config_t) (w w' : Trace) (rc : Int) (st : st7735_panel_t)
    (hbits : k.bits_ok)
    (h : esp_lcd_new_panel_st7735 k env io cfg w = (rc, some st, w')) :
    orientation_inv k (color_order_bit k cfg) io st := by
  obtain ⟨_, _, _, rfl⟩ := new_panel_some k env io cfg w w' rc st h
  refine ⟨rfl, false, false, false, ?_⟩
  have hor : u8_or_assign 0 k.LCD_CMD_BGR_BIT = k.LCD_CMD_BGR_BIT := by
    unfold u8_or_assign
    rw [Nat.zero_or]
    exact Nat.mod_eq_of_lt hbits.2.2.2.1
  simp only [orientation_value, color_order_bit, Bool.false_eq_true, if_false, Nat.or_zero]
  split_ifs
  · rfl
  · exact hor

/-- C4: on every driver state reached from a successful construction by any sequence of
operations, after `mirror(mirror_x, mirror_y)` and `swap_xy(swap_axes)` in either order the
stored `madctl_val` and the parameter of the last command emitted, a MADCTL command, both
equal the colour-order bit OR the MX, MY, MV masks of the flags requested, whatever flags
were held before. -/
theorem orientation_after_mirror_and_swap_xy (k : Headers) (env : Env) (io : Nat)
    (cfg : esp_lcd_panel_dev_config_t) (w0 w1 : Trace) (rc : Int) (st0 : st7735_panel_t)
    (hbits : k.bits_ok)
    (hnew : esp_lcd_new_panel_st7735 k env io cfg w0 = (rc, some st0, w1))
    (ops : List PanelOp) (mirror_x mirror_y swap_axes : Bool) :
    (mirror_then_swap_xy k env (run_ops k env ops st0 w1).1 mirror_x mirror_y swap_axes
        (run_ops k env ops st0 w1).2).2.1.madctl_val
      = orientation_value k (color_order_bit k cfg) mirror_x mirror_y swap_axes ∧
    (mirror_then_swap_xy k env (run_ops k env ops st0 w1).1 mirror_x mirror_y swap_axes
        (run_ops k env ops st0 w1).2).2.2.getLast?
      = some (.tx_param io k.LCD_CMD_MADCTL
          [orientation_value k (color_order_bit k cfg) mirror_x mirror_y swap_axes]) ∧
    (swap_xy_then_mirror k env (run_ops k env ops st0 w1).1 mirror_x mirror_y swap_axes
        (run_ops k env ops st0 w1).2).2.1.madctl_val
      = orientation_value k (color_order_bit k cfg) mirror_x mirror_y swap_axes ∧
    (swap_xy_then_mirror k env (run_ops k env ops st0 w1).1 mirror_x mirror_y swap_axes
        (run_ops k env ops st0 w1).2).2.2.getLast?
      = some (.tx_param io k.LCD_CMD_MADCTL
          [orientation_value k (color_order_bit k cfg) mirror_x mirror_y swap_axes]) := by
  have hcb : color_order_bit k cfg = 0 ∨ color_order_bit k cfg = k.LCD_CMD_BGR_BIT := by
    unfold color_order_bit
    split_ifs
    · exact Or.inl rfl
    · exact Or.inr rfl
  obtain ⟨hio, a, b, c, hst⟩ := run_ops_preserves_orientation_inv k env hbits _ io hcb ops
    st0 w1 (new_panel_orientation_inv k env io cfg w0 w1 rc st0 hbits hnew)
  generalize (run_ops k env ops st0 w1).1 = st at hio hst ⊢
  generalize (run_ops k env ops st0 w1).2 = w
  have hm := mirror_madctl k env st w hbits _ hcb a b c mirror_x mirror_y hst
  have hms := swap_xy_madctl k env (panel_st7735_mirror k env st mirror_x mirror_y w).2.1
    (panel_st7735_mirror k env st mirror_x mirror_y w).2.2 hbits _ hcb mirror_x mirror_y c
    swap_axes hm
  have hs := swap_xy_madctl k env st w hbits _ hcb a b c swap_axes hst
  have hsm := mirror_madctl k env (panel_st7735_swap_xy k env st swap_axes w).2.1
    (panel_st7735_swap_xy k env st swap_axes w).2.2 hbits _ hcb a b swap_axes
    mirror_x mirror_y hs
  refine ⟨hms, ?_, hsm, ?_⟩
  · unfold mirror_then_swap_xy
    rw [(swap_xy_trace k env _ swap_axes _).1, hms, (mirror_trace k env st _ _ w).2, hio]
    simp
  · unfold swap_xy_then_mirror
    rw [(mirror_trace k env _ _ _ _).1, hsm, (swap_xy_trace k env st _ w).2, hio]
    simp

/-- C4 (witness): the BGR driver after `mirror(true, true)`, `init`, `swap_xy(true)` and
`set_gap(2, 3)`, then asked for `mirror(false, true)` and `swap_xy(false)`. -/
theorem orientation_after_mirror_and_swap_xy_witness :
    (mirror_then_swap_xy esp_idf (env_ok esp_idf)
        (run_ops esp_idf (env_ok esp_idf) [.mirror true true, .init, .swap_xy true, .set_gap 2 3]
          panel_bgr666 [.gpio_config 2 16]).1 false true false
        (run_ops esp_idf (env_ok esp_idf) [.mirror true true, .init, .swap_xy true, .set_gap 2 3]
          panel_bgr666 [.gpio_config 2 16]).2).2.1.madctl_val
      = orientation_value esp_idf (color_order_bit esp_idf ⟨4, 1, 18, true⟩)
          false true false ∧
    (mirror_then_swap_xy esp_idf (env_ok esp_idf)
        (run_ops esp_idf (env_ok esp_idf) [.mirror true true, .init, .swap_xy true, .set_gap 2 3]
          panel_bgr666 [.gpio_config 2 16]).1 false true false
        (run_ops esp_idf (env_ok esp_idf) [.mirror true true, .init, .swap_xy true, .set_gap 2 3]
          panel_bgr666 [.gpio_config 2 16]).2).2.2.getLast?
      = some (.tx_param 7 esp_idf.LCD_CMD_MADCTL
          [orientation_value esp_idf (color_order_bit esp_idf ⟨4, 1, 18, true⟩)
            false true false]) ∧
    (swap_xy_then_mirror esp_idf (env_ok esp_idf)
        (run_ops esp_idf (env_ok esp_idf) [.mirror true true, .init, .swap_xy true, .set_gap 2 3]
          panel_bgr666 [.gpio_config 2 16]).1 false true false
        (run_ops esp_idf (env_ok esp_idf) [.mirror true true, .init, .swap_xy true, .set_gap 2 3]
          panel_bgr666 [.gpio_config 2 16]).2).2.1.madctl_val
      = orientation_value esp_idf (color_order_bit esp_idf ⟨4, 1, 18, true⟩)
          false true false ∧
    (swap_xy_then_mirror esp_idf (env_ok esp_idf)
        (run_ops esp_idf (env_ok esp_idf) [.mirror true true, .init, .swap_xy true, .set_gap 2 3]
          panel_bgr666 [.gpio_config 2 16]).1 false true false
        (run_ops esp_idf (env_ok esp_idf) [.mirror true true, .init, .swap_xy true, .set_gap 2 3]
          panel_bgr666 [.gpio_config 2 16]).2).2.2.getLast?
      = some (.tx_param 7 esp_idf.LCD_CMD_MADCTL
          [orientation_value esp_idf (color_order_bit esp_idf ⟨4, 1, 18, true⟩)
            false true false]) :=
  orientation_after_mirror_and_swap_xy esp_idf (env_ok esp_idf) 7 ⟨4, 1, 18, true⟩ []
    [.gpio_config 2 16] 0 panel_bgr666 (by decide) (by decide)
    [.mirror true true, .init, .swap_xy true, .set_gap 2 3] false true false

/-- The conversion to `uint8_t` of `v & 0xff` for a non-negative `v` is the byte itself. -/
theorem to_uint8_land_ff (v : Int) (h0 : 0 ≤ v) :
    to_uint8 (Int.land v 0xff) = (Int.land v 0xff).toNat := by
  rw [land_ff_of_nonneg v h0]
  exact to_uint8_of_byte _ (by omega) (by omega)

/-- Where the slip of `draw_bitmap` does not show: for a non-negative first address and a last
address from 0 to 511 the four bytes sent are the 16-bit big-endian first and last address. -/
theorem draw_bitmap_window_eq_spec_window (s e : Int) (hs : 0 ≤ s) (he0 : 1 ≤ e)
    (he : e ≤ 512) : draw_bitmap_window s e = spec_window s (e - 1) := by
  have hsub : int_sub e 1 = e - 1 := wrap32_of_range _ (by norm_num; omega) (by norm_num; omega)
  have hshift : ∀ v : Int, v >>> (8 : Nat) = v / 256 := fun v => by
    rw [Int.shiftRight_eq_div_pow]; norm_num
  have hs8 : 0 ≤ s >>> (8 : Nat) := by rw [hshift]; omega
  have he8 : 0 ≤ (e - 1) >>> (8 : Nat) := by rw [hshift]; omega
  unfold draw_bitmap_window spec_window spec_hi spec_lo
  rw [hsub, to_uint8_land_ff _ hs8, to_uint8_land_ff _ hs, to_uint8_land_ff _ (by omega)]
  congr 3
  rw [land_ff_of_nonneg _ he8, hshift]
  unfold logical_and to_uint8
  have h01 : (e - 1) / 256 = 0 ∨ (e - 1) / 256 = 1 := by omega
  rcases h01 with h | h <;> rw [h] <;> decide

/-- C11: on a driver constructed with 16 bits per pixel, after `set_gap(2, 3)` the call
`draw_bitmap(10, 20, 20, 40, buf)` emits CASET `[00 0c 00 15]` (columns 12 to 21), RASET
`[00 17 00 2a]` (rows 23 to 42) and one RAMWR transfer of `buf` with length 400. -/
theorem draw_bitmap_end_to_end (k : Headers) (env : Env) (io : Nat)
    (cfg : esp_lcd_panel_dev_config_t) (w0 w1 : Trace) (rc : Int) (st0 : st7735_panel_t)
    (hnew : esp_lcd_new_panel_st7735 k env io cfg w0 = (rc, some st0, w1))
    (hbpp : cfg.bits_per_pixel = 16) (color_data : List Nat) (w : Trace) :
    (panel_st7735_draw_bitmap k env (panel_st7735_set_gap k st0 2 3 w).2.1
        10 20 20 40 color_data w).2.2
      = w ++ [.tx_param io k.LCD_CMD_CASET [0x00, 0x0c, 0x00, 0x15],
              .tx_param io k.LCD_CMD_RASET [0x00, 0x17, 0x00, 0x2a],
              .tx_color io k.LCD_CMD_RAMWR color_data 400] := by
  obtain ⟨_, _, _, rfl⟩ := new_panel_some k env io cfg w0 w1 rc st0 hnew
  rw [draw_bitmap_eq]
  simp only [panel_st7735_set_gap, hbpp, if_true, draw_bitmap_len]
  have hx : draw_bitmap_window (int_add 10 2) (int_add 20 2) = [0x00, 0x0c, 0x00, 0x15] := by
    decide
  have hy : draw_bitmap_window (int_add 20 3) (int_add 40 3) = [0x00, 0x17, 0x00, 0x2a] := by
    decide
  have hl : to_size_t (int_mul (int_mul (int_sub (int_add 20 2) (int_add 10 2))
      (int_sub (int_add 40 3) (int_add 20 3))) ((16 : Nat) : Int) >>> (3 : Nat)) = 400 := by
    decide
  rw [hx, hy, hl]

/-- C11 (witness): the RGB565 driver without a reset line, and a buffer `[1, 2]`. -/
theorem draw_bitmap_end_to_end_witness :
    esp_lcd_new_panel_st7735 esp_idf (env_ok esp_idf) 0 ⟨-1, 0, 16, false⟩ []
      = (0, some panel_rgb565, []) ∧
    (panel_st7735_draw_bitmap esp_idf env_fail (panel_st7735_set_gap esp_idf panel_rgb565 2 3
        []).2.1 10 20 20 40 [1, 2] []).2.2
      = [] ++ [.tx_param 0 esp_idf.LCD_CMD_CASET [0x00, 0x0c, 0x00, 0x15],
              .tx_param 0 esp_idf.LCD_CMD_RASET [0x00, 0x17, 0x00, 0x2a],
              .tx_color 0 esp_idf.LCD_CMD_RAMWR [1, 2] 400] :=
  ⟨by decide,
   draw_bitmap_end_to_end esp_idf env_fail 0 ⟨-1, 0, 16, false⟩ [] [] 0 panel_rgb565
    (by decide) rfl [1, 2] []⟩

/-- C12: with memory available, a construction with BGR order, 16 bits per pixel and no
reset line succeeds without any call to a collaborator, and `init` on the driver it returns
emits SWRESET as its 1st event, SLPOUT as its 3rd, MADCTL with the single parameter
`LCD_CMD_BGR_BIT` as its 16th and COLMOD with the single parameter `0x55` as its 17th. -/
theorem init_after_bgr_construction (k : Headers) (env : Env) (io : Nat)
    (cfg : esp_lcd_panel_dev_config_t) (w : Trace)
    (hmem : env.calloc_ok = true)
    (hcs : k.ESP_LCD_COLOR_SPACE_RGB ≠ k.ESP_LCD_COLOR_SPACE_BGR)
    (hB : k.LCD_CMD_BGR_BIT < 256)
    (hcol : cfg.color_space = k.ESP_LCD_COLOR_SPACE_BGR)
    (hbpp : cfg.bits_per_pixel = 16) (hrst : cfg.reset_gpio_num < 0) :
    ∃ st : st7735_panel_t,
      esp_lcd_new_panel_st7735 k env io cfg w = (k.ESP_OK, some st, w) ∧
      (emitted w (panel_st7735_init k env st w).2.2)[0]?
        = some (.tx_param io k.LCD_CMD_SWRESET []) ∧
      (emitted w (panel_st7735_init k env st w).2.2)[2]?
        = some (.tx_param io k.LCD_CMD_SLPOUT []) ∧
      (emitted w (panel_st7735_init k env st w).2.2)[15]?
        = some (.tx_param io k.LCD_CMD_MADCTL [k.LCD_CMD_BGR_BIT]) ∧
      (emitted w (panel_st7735_init k env st w).2.2)[16]?
        = some (.tx_param io k.LCD_CMD_COLMOD [0x55]) := by
  have hn : ¬ cfg.reset_gpio_num ≥ 0 := by omega
  have hne : ¬ k.ESP_LCD_COLOR_SPACE_BGR = k.ESP_LCD_COLOR_SPACE_RGB := fun e => hcs e.symm
  have hor : u8_or_assign calloc_panel.madctl_val k.LCD_CMD_BGR_BIT = k.LCD_CMD_BGR_BIT := by
    unfold u8_or_assign calloc_panel
    rw [Nat.zero_or]
    exact Nat.mod_eq_of_lt hB
  have h : ∀ t : Trace, emitted w (w ++ t) = t := fun t => by simp [emitted]
  refine ⟨{ io := io, reset_gpio_num := cfg.reset_gpio_num,
            reset_level := cfg.reset_active_high, x_gap := 0, y_gap := 0,
            fb_bits_per_pixel := 16, madctl_val := k.LCD_CMD_BGR_BIT, colmod_cal := 0x55 },
    ?_, ?_⟩
  · rw [new_panel_of_resources k env io cfg w hmem (fun hge => absurd hge hn)]
    unfold new_panel_color_space new_panel_pixel_width new_panel_fill after_gpio_config
    rw [if_neg hn, hcol, if_neg hne, if_pos rfl, if_pos hbpp, hor]
    rfl
  · rw [init_eq, h]
    exact ⟨rfl, rfl, rfl, rfl⟩

/-- C12 (witness): the ESP-IDF constants, transport handle 3, every transport send failing. -/
theorem init_after_bgr_construction_witness :
    ∃ st : st7735_panel_t,
      esp_lcd_new_panel_st7735 esp_idf env_fail 3 ⟨-1, 1, 16, false⟩ []
        = (esp_idf.ESP_OK, some st, []) ∧
      (emitted [] (panel_st7735_init esp_idf env_fail st []).2.2)[0]?
        = some (.tx_param 3 esp_idf.LCD_CMD_SWRESET []) ∧
      (emitted [] (panel_st7735_init esp_idf env_fail st []).2.2)[2]?
        = some (.tx_param 3 esp_idf.LCD_CMD_SLPOUT []) ∧
      (emitted [] (panel_st7735_init esp_idf env_fail st []).2.2)[15]?
        = some (.tx_param 3 esp_idf.LCD_CMD_MADCTL [esp_idf.LCD_CMD_BGR_BIT]) ∧
      (emitted [] (panel_st7735_init esp_idf env_fail st []).2.2)[16]?
        = some (.tx_param 3 esp_idf.LCD_CMD_COLMOD [0x55]) :=
  init_after_bgr_construction esp_idf env_fail 3 ⟨-1, 1, 16, false⟩ [] rfl (by decide)
    (by decide) rfl rfl (by decide)

/-- C13: `reset` returns `ESP_OK`, leaves the driver object unchanged and appends one of two
traces: with a reset line (`reset_gpio_num >= 0`) it drives the pin to `reset_level`, waits
10 ms, drives it to the opposite level and waits 10 ms, without a transport command;
otherwise it sends SWRESET without parameters and waits 120 ms, without a GPIO call. -/
theorem reset_emits_one_of_two_traces (k : Headers) (env : Env) (st : st7735_panel_t)
    (w : Trace) :
    panel_st7735_reset k env st w
      = (k.ESP_OK, st,
         w ++ (if st.reset_gpio_num ≥ 0 then
                 [.gpio_set_level st.reset_gpio_num st.reset_level, .delay_ms 10,
                  .gpio_set_level st.reset_gpio_num (!st.reset_level), .delay_ms 10]
               else
                 [.tx_param st.io k.LCD_CMD_SWRESET [], .delay_ms 120])) := by
  unfold panel_st7735_reset
  by_cases hn : st.reset_gpio_num ≥ 0
  · simp only [if_pos hn, call, vTaskDelay_ms, List.append_assoc, List.cons_append,
      List.nil_append]
  · simp only [if_neg hn, esp_lcd_panel_io_tx_param, call, vTaskDelay_ms, List.append_assoc,
      List.cons_append, List.nil_append]

/-- The bits of one orientation step, for any register value and any mask. -/
theorem testBit_u8_set_or_clear (flag : Bool) (v b i : Nat) :
    (u8_set_or_clear flag v b).testBit i
      = bit_set_or_clear flag (decide (i < 8)) (v.testBit i) (b.testBit i) := by
  unfold u8_set_or_clear bit_set_or_clear
  cases flag
  · simp only [Bool.false_eq_true, if_false, cond_false]
    unfold u8_and_not_assign bit_not32
    have hb : b % 2 ^ 32 < 2 ^ 32 := Nat.mod_lt _ (by decide)
    rw [show (256 : Nat) = 2 ^ 8 by decide, Nat.testBit_mod_two_pow, Nat.testBit_and,
      show 2 ^ 32 - 1 - b % 2 ^ 32 = 2 ^ 32 - (b % 2 ^ 32 + 1) by omega,
      Nat.testBit_two_pow_sub_succ hb, Nat.testBit_mod_two_pow]
    by_cases h8 : i < 8
    · have h32 : i < 32 := by omega
      simp [h8, h32]
    · simp [h8]
  · simp only [if_true, cond_true]
    unfold u8_or_assign
    rw [show (256 : Nat) = 2 ^ 8 by decide, Nat.testBit_mod_two_pow, Nat.testBit_or]

/-- A bit of a byte mask is a bit of a byte. -/
theorem testBit_of_byte (B i : Nat) (hB : B < 256) (h8 : ¬ i < 8) : B.testBit i = false := by
  apply Nat.testBit_lt_two_pow
  calc B < 2 ^ 8 := hB
    _ ≤ 2 ^ i := Nat.pow_le_pow_right (by decide) (by omega)

/-- An orientation step does not touch the bits of a byte mask disjoint from its own. -/
theorem u8_set_or_clear_and (flag : Bool) (v b B : Nat) (hB : B < 256) (hd : B &&& b = 0) :
    u8_set_or_clear flag v b &&& B = v &&& B := by
  apply Nat.eq_of_testBit_eq
  intro i
  rw [Nat.testBit_and, Nat.testBit_and, testBit_u8_set_or_clear]
  have h1 := testBit_of_and_eq_zero B b i hd
  unfold bit_set_or_clear
  by_cases h8 : i < 8
  · cases flag <;> cases hb : b.testBit i <;> cases hBi : B.testBit i <;>
      simp_all
  · rw [testBit_of_byte B i hB h8]
    simp

/-- The driver object after `mirror`: only `madctl_val` changes, by two orientation steps. -/
theorem mirror_state (k : Headers) (env : Env) (st : st7735_panel_t) (mx my : Bool)
    (w : Trace) :
    (panel_st7735_mirror k env st mx my w).2.1
      = { st with madctl_val := (u8_set_or_clear my
            (u8_set_or_clear mx st.madctl_val k.LCD_CMD_MX_BIT) k.LCD_CMD_MY_BIT) } := by
  cases mx <;> cases my <;> rfl

/-- The driver object after `swap_xy`: only `madctl_val` changes, by one orientation step. -/
theorem swap_xy_state (k : Headers) (env : Env) (st : st7735_panel_t) (sv : Bool)
    (w : Trace) :
    (panel_st7735_swap_xy k env st sv w).2.1
      = { st with madctl_val := u8_set_or_clear sv st.madctl_val k.LCD_CMD_MV_BIT } := by
  cases sv <;> rfl

/-- One operation keeps the colour mode, the frame buffer width and the BGR bit. -/
theorem run_keeps_format (k : Headers) (env : Env) (hbits : k.bits_ok) (op : PanelOp)
    (st : st7735_panel_t) (w : Trace) :
    (op.run k env st w).2.1.colmod_cal = st.colmod_cal ∧
    (op.run k env st w).2.1.fb_bits_per_pixel = st.fb_bits_per_pixel ∧
    (op.run k env st w).2.1.madctl_val &&& k.LCD_CMD_BGR_BIT
      = st.madctl_val &&& k.LCD_CMD_BGR_BIT := by
  obtain ⟨_, _, _, hB, _, _, _, hBX, hBY, hBV⟩ := hbits
  cases op with
  | mirror mx my =>
    show (panel_st7735_mirror k env st mx my w).2.1.colmod_cal = _ ∧
      (panel_st7735_mirror k env st mx my w).2.1.fb_bits_per_pixel = _ ∧
      (panel_st7735_mirror k env st mx my w).2.1.madctl_val &&& _ = _
    rw [mirror_state]
    refine ⟨rfl, rfl, ?_⟩
    show u8_set_or_clear my (u8_set_or_clear mx st.madctl_val k.LCD_CMD_MX_BIT)
      k.LCD_CMD_MY_BIT &&& k.LCD_CMD_BGR_BIT = _
    rw [u8_set_or_clear_and _ _ _ _ hB hBY, u8_set_or_clear_and _ _ _ _ hB hBX]
  | swap_xy sv =>
    show (panel_st7735_swap_xy k env st sv w).2.1.colmod_cal = _ ∧
      (panel_st7735_swap_xy k env st sv w).2.1.fb_bits_per_pixel = _ ∧
      (panel_st7735_swap_xy k env st sv w).2.1.madctl_val &&& _ = _
    rw [swap_xy_state]
    refine ⟨rfl, rfl, ?_⟩
    show u8_set_or_clear sv st.madctl_val k.LCD_CMD_MV_BIT &&& k.LCD_CMD_BGR_BIT = _
    rw [u8_set_or_clear_and _ _ _ _ hB hBV]
  | _ => exact ⟨rfl, rfl, rfl⟩

/-- C14: for header constants whose MADCTL masks are bytes and pairwise disjoint, every
operation other than construction and deletion, on every driver state and with any
arguments, leaves `colmod_cal`, `fb_bits_per_pixel` and the `LCD_CMD_BGR_BIT` bit of
`madctl_val` as they were; hence so does every sequence of operations. -/
theorem format_and_color_order_fixed (k : Headers) (env : Env) (hbits : k.bits_ok)
    (op : PanelOp) (ops : List PanelOp) (st : st7735_panel_t) (w : Trace) :
    ((op.run k env st w).2.1.colmod_cal = st.colmod_cal ∧
      (op.run k env st w).2.1.fb_bits_per_pixel = st.fb_bits_per_pixel ∧
      (op.run k env st w).2.1.madctl_val &&& k.LCD_CMD_BGR_BIT
        = st.madctl_val &&& k.LCD_CMD_BGR_BIT) ∧
    ((run_ops k env ops st w).1.colmod_cal = st.colmod_cal ∧
      (run_ops k env ops st w).1.fb_bits_per_pixel = st.fb_bits_per_pixel ∧
      (run_ops k env ops st w).1.madctl_val &&& k.LCD_CMD_BGR_BIT
        = st.madctl_val &&& k.LCD_CMD_BGR_BIT) := by
  refine ⟨run_keeps_format k env hbits op st w, ?_⟩
  induction ops generalizing st w with
  | nil => exact ⟨rfl, rfl, rfl⟩
  | cons o os ih =>
    obtain ⟨h1, h2, h3⟩ := run_keeps_format k env hbits o st w
    obtain ⟨i1, i2, i3⟩ := ih (o.run k env st w).2.1 (o.run k env st w).2.2
    exact ⟨i1.trans h1, i2.trans h2, i3.trans h3⟩

/-- C14 (witness): the BGR driver, the operation `mirror(true, false)` and the sequence
`swap_xy(true)`, `init`, `mirror(true, true)`, `set_gap(1, 1)`, `reset`. -/
theorem format_and_color_order_fixed_witness :
    ((PanelOp.run esp_idf env_fail panel_bgr666 [] (.mirror true false)).2.1.colmod_cal
        = panel_bgr666.colmod_cal ∧
      (PanelOp.run esp_idf env_fail panel_bgr666 [] (.mirror true false)).2.1.fb_bits_per_pixel
        = panel_bgr666.fb_bits_per_pixel ∧
      (PanelOp.run esp_idf env_fail panel_bgr666 [] (.mirror true false)).2.1.madctl_val
          &&& esp_idf.LCD_CMD_BGR_BIT
        = panel_bgr666.madctl_val &&& esp_idf.LCD_CMD_BGR_BIT) ∧
    ((run_ops esp_idf env_fail
          [.swap_xy true, .init, .mirror true true, .set_gap 1 1, .reset]
          panel_bgr666 []).1.colmod_cal = panel_bgr666.colmod_cal ∧
      (run_ops esp_idf env_fail
          [.swap_xy true, .init, .mirror true true, .set_gap 1 1, .reset]
          panel_bgr666 []).1.fb_bits_per_pixel = panel_bgr666.fb_bits_per_pixel ∧
      (run_ops esp_idf env_fail
          [.swap_xy true, .init, .mirror true true, .set_gap 1 1, .reset]
          panel_bgr666 []).1.madctl_val &&& esp_idf.LCD_CMD_BGR_BIT
        = panel_bgr666.madctl_val &&& esp_idf.LCD_CMD_BGR_BIT) :=
  format_and_color_order_fixed esp_idf env_fail (by decide) (.mirror true false)
    [.swap_xy true, .init, .mirror true true, .set_gap 1 1, .reset] panel_bgr666 []

/-- C15: `set_gap` returns `ESP_OK`, emits nothing, stores its two arguments in `x_gap` and
`y_gap` and leaves every other field as it was; the next `draw_bitmap` shifts its
coordinates by the new gaps and the next `init` builds its CASET and RASET windows from
them. -/
theorem set_gap_is_pure_state_update (k : Headers) (env : Env) (st : st7735_panel_t)
    (x_gap y_gap : Int) (w : Trace) (x_start y_start x_end y_end : Int)
    (color_data : List Nat) :
    panel_st7735_set_gap k st x_gap y_gap w
      = (k.ESP_OK,
         { io := st.io, reset_gpio_num := st.reset_gpio_num, reset_level := st.reset_level,
           x_gap := x_gap, y_gap := y_gap, fb_bits_per_pixel := st.fb_bits_per_pixel,
           madctl_val := st.madctl_val, colmod_cal := st.colmod_cal },
         w) ∧
    emitted w (panel_st7735_draw_bitmap k env (panel_st7735_set_gap k st x_gap y_gap w).2.1
        x_start y_start x_end y_end color_data w).2.2
      = [.tx_param st.io k.LCD_CMD_CASET
           (draw_bitmap_window (int_add x_start x_gap) (int_add x_end x_gap)),
         .tx_param st.io k.LCD_CMD_RASET
           (draw_bitmap_window (int_add y_start y_gap) (int_add y_end y_gap)),
         .tx_color st.io k.LCD_CMD_RAMWR color_data
           (draw_bitmap_len st (int_add x_start x_gap) (int_add y_start y_gap)
             (int_add x_end x_gap) (int_add y_end y_gap))] ∧
    (emitted w (panel_st7735_init k env
        (panel_st7735_set_gap k st x_gap y_gap w).2.1 w).2.2)[17]?
      = some (.tx_param st.io k.LCD_CMD_CASET
          [0x00, to_uint8 x_gap, 0x00, to_uint8 (int_add 0x7f x_gap)]) ∧
    (emitted w (panel_st7735_init k env
        (panel_st7735_set_gap k st x_gap y_gap w).2.1 w).2.2)[18]?
      = some (.tx_param st.io k.LCD_CMD_RASET
          [0x00, to_uint8 y_gap, 0x00, to_uint8 (int_add 0x9f y_gap)]) := by
  have h : ∀ t : Trace, emitted w (w ++ t) = t := fun t => by simp [emitted]
  refine ⟨rfl, ?_, ?_, ?_⟩
  · rw [draw_bitmap_eq, h]
    rfl
  · rw [init_eq, h]
    rfl
  · rw [init_eq, h]
    rfl

/-- Repeating an orientation step, or a pair of steps, changes no bit. -/
theorem bit_set_or_clear_idem : ∀ (fx fy low v X Y : Bool),
    bit_set_or_clear fy low (bit_set_or_clear fx low
        (bit_set_or_clear fy low (bit_set_or_clear fx low v X) Y) X) Y
      = bit_set_or_clear fy low (bit_set_or_clear fx low v X) Y ∧
    bit_set_or_clear fx low (bit_set_or_clear fx low v X) X
      = bit_set_or_clear fx low v X := by
  decide

/-- The two orientation steps of `mirror`, done twice, store what they store when done once. -/
theorem u8_set_or_clear_pair_idem (fx fy : Bool) (v X Y : Nat) :
    u8_set_or_clear fy (u8_set_or_clear fx
        (u8_set_or_clear fy (u8_set_or_clear fx v X) Y) X) Y
      = u8_set_or_clear fy (u8_set_or_clear fx v X) Y := by
  apply Nat.eq_of_testBit_eq
  intro i
  simp only [testBit_u8_set_or_clear]
  exact (bit_set_or_clear_idem fx fy _ _ _ _).1

/-- The orientation step of `swap_xy`, done twice, stores what it stores when done once. -/
theorem u8_set_or_clear_idem (fx : Bool) (v X : Nat) :
    u8_set_or_clear fx (u8_set_or_clear fx v X) X = u8_set_or_clear fx v X := by
  apply Nat.eq_of_testBit_eq
  intro i
  simp only [testBit_u8_set_or_clear]
  exact (bit_set_or_clear_idem fx fx _ (v.testBit i) _ (X.testBit i)).2

/-- C16: for every driver state and all booleans, a second call of `mirror(mx, my)` right
after the first leaves the driver object as the first call left it and emits the MADCTL
command with the same parameter as the first; the same holds for `swap_xy(sv)`. -/
theorem orientation_calls_idempotent (k : Headers) (env : Env) (st : st7735_panel_t)
    (mx my sv : Bool) (w : Trace) :
    ((panel_st7735_mirror k env (panel_st7735_mirror k env st mx my w).2.1 mx my
          (panel_st7735_mirror k env st mx my w).2.2).2.1
        = (panel_st7735_mirror k env st mx my w).2.1 ∧
      (panel_st7735_mirror k env (panel_st7735_mirror k env st mx my w).2.1 mx my
          (panel_st7735_mirror k env st mx my w).2.2).2.2
        = w ++ [.tx_param st.io k.LCD_CMD_MADCTL
                  [(panel_st7735_mirror k env st mx my w).2.1.madctl_val],
                .tx_param st.io k.LCD_CMD_MADCTL
                  [(panel_st7735_mirror k env st mx my w).2.1.madctl_val]]) ∧
    ((panel_st7735_swap_xy k env (panel_st7735_swap_xy k env st sv w).2.1 sv
          (panel_st7735_swap_xy k env st sv w).2.2).2.1
        = (panel_st7735_swap_xy k env st sv w).2.1 ∧
      (panel_st7735_swap_xy k env (panel_st7735_swap_xy k env st sv w).2.1 sv
          (panel_st7735_swap_xy k env st sv w).2.2).2.2
        = w ++ [.tx_param st.io k.LCD_CMD_MADCTL
                  [(panel_st7735_swap_xy k env st sv w).2.1.madctl_val],
                .tx_param st.io k.LCD_CMD_MADCTL
                  [(panel_st7735_swap_xy k env st sv w).2.1.madctl_val]]) := by
  have hm : (panel_st7735_mirror k env (panel_st7735_mirror k env st mx my w).2.1 mx my
      (panel_st7735_mirror k env st mx my w).2.2).2.1
        = (panel_st7735_mirror k env st mx my w).2.1 := by
    rw [mirror_state k env _ mx my _, mirror_state k env st mx my w]
    simp only [u8_set_or_clear_pair_idem]
  have hs : (panel_st7735_swap_xy k env (panel_st7735_swap_xy k env st sv w).2.1 sv
      (panel_st7735_swap_xy k env st sv w).2.2).2.1
        = (panel_st7735_swap_xy k env st sv w).2.1 := by
    rw [swap_xy_state k env _ sv _, swap_xy_state k env st sv w]
    simp only [u8_set_or_clear_idem]
  refine ⟨⟨hm, ?_⟩, ⟨hs, ?_⟩⟩
  · rw [(mirror_trace k env _ mx my _).1, hm, (mirror_trace k env st mx my w).1,
      (mirror_trace k env st mx my w).2]
    simp
  · rw [(swap_xy_trace k env _ sv _).1, hs, (swap_xy_trace k env st sv w).1,
      (swap_xy_trace k env st sv w).2]
    simp

/-- C17: `disp_off(b)` emits exactly one transport command without parameters, DISPOFF when
`b` is true and DISPON when it is false; `invert_color(b)` emits exactly one, INVON when `b`
is true and INVOFF when it is false; both return `ESP_OK` and leave the driver object
unchanged. -/
theorem disp_off_and_invert_color_send_one_command (k : Headers) (env : Env)
    (st : st7735_panel_t) (b : Bool) (w : Trace) :
    panel_st7735_disp_off k env st b w
      = (k.ESP_OK, st,
         w ++ [.tx_param st.io (if b then k.LCD_CMD_DISPOFF else k.LCD_CMD_DISPON) []]) ∧
    panel_st7735_invert_color k env st b w
      = (k.ESP_OK, st,
         w ++ [.tx_param st.io (if b then k.LCD_CMD_INVON else k.LCD_CMD_INVOFF) []]) :=
  ⟨rfl, rfl⟩

/-- C19: `draw_bitmap` leaves the driver object as it found it, for every state and all
arguments, so a second call with the same arguments emits the same CASET, RASET and RAMWR
events as the first. -/
theorem draw_bitmap_keeps_state (k : Headers) (env : Env) (st : st7735_panel_t)
    (x_start y_start x_end y_end : Int) (color_data : List Nat) (w : Trace) :
    (panel_st7735_draw_bitmap k env st x_start y_start x_end y_end color_data w).2.1 = st ∧
    emitted (panel_st7735_draw_bitmap k env st x_start y_start x_end y_end color_data w).2.2
        (panel_st7735_draw_bitmap k env
          (panel_st7735_draw_bitmap k env st x_start y_start x_end y_end color_data w).2.1
          x_start y_start x_end y_end color_data
          (panel_st7735_draw_bitmap k env st x_start y_start x_end y_end color_data w).2.2).2.2
      = emitted w
          (panel_st7735_draw_bitmap k env st x_start y_start x_end y_end color_data w).2.2 ∧
    (emitted w
        (panel_st7735_draw_bitmap k env st x_start y_start x_end y_end color_data w).2.2).length
      = 3 := by
  have h : ∀ u t : Trace, emitted u (u ++ t) = t := fun u t => by simp [emitted]
  simp only [draw_bitmap_eq, h]
  refine ⟨trivial, ?_, rfl⟩
  simp [emitted]

/-- The calls of a construction for which memory was available and whose reset pin number
is below 64: the configuration of the reset pin when one is given, followed by
`gpio_reset_pin` when construction fails. -/
theorem new_panel_trace (k : Headers) (env : Env) (io : Nat)
    (cfg : esp_lcd_panel_dev_config_t) (w : Trace) (hmem : env.calloc_ok = true)
    (hpin : cfg.reset_gpio_num < 64) :
    emitted w (esp_lcd_new_panel_st7735 k env io cfg w).2.2
      = if cfg.reset_gpio_num ≥ 0 then
          if (esp_lcd_new_panel_st7735 k env io cfg w).2.1.isSome then
            [.gpio_config k.GPIO_MODE_OUTPUT (2 ^ cfg.reset_gpio_num.toNat)]
          else
            [.gpio_config k.GPIO_MODE_OUTPUT (2 ^ cfg.reset_gpio_num.toNat),
             .gpio_reset_pin cfg.reset_gpio_num]
        else [] := by
  have hmask : 2 ^ cfg.reset_gpio_num.toNat % 2 ^ 64 = 2 ^ cfg.reset_gpio_num.toNat := by
    apply Nat.mod_eq_of_lt
    apply Nat.pow_lt_pow_right (by decide)
    omega
  rw [← hmask]
  have h : ∀ t : Trace, emitted w (w ++ t) = t := fun t => by simp [emitted]
  have h0 : emitted w w = [] := by simp [emitted]
  unfold esp_lcd_new_panel_st7735 new_panel_color_space new_panel_pixel_width new_panel_fill
    new_panel_err call
  rw [hmem]
  by_cases hn : cfg.reset_gpio_num ≥ 0
  · simp only [Bool.not_true, Bool.false_eq_true, if_false, if_pos hn, List.append_assoc,
      List.singleton_append]
    split_ifs <;> simp_all
  · simp only [Bool.not_true, Bool.false_eq_true, if_false, if_neg hn]
    split_ifs <;> simp_all

/-- C18: when memory is available and the reset pin number is below 64 (where the shift
`1ULL << reset_gpio_num` is defined), construction calls `gpio_config` if and only if a
reset line is specified (`reset_gpio_num >= 0`), once, in output mode and with the mask
`2 ^ reset_gpio_num` of exactly that pin; it emits no transport command; and when that call
returns an error `e`, construction returns `e` and no driver instance. -/
theorem new_panel_configures_reset_pin (k : Headers) (env : Env) (io : Nat)
    (cfg : esp_lcd_panel_dev_config_t) (w : Trace) (hmem : env.calloc_ok = true)
    (hpin : cfg.reset_gpio_num < 64) :
    (emitted w (esp_lcd_new_panel_st7735 k env io cfg w).2.2).filter Event.is_gpio_config
      = (if cfg.reset_gpio_num ≥ 0 then
          [.gpio_config k.GPIO_MODE_OUTPUT (2 ^ cfg.reset_gpio_num.toNat)]
        else []) ∧
    (emitted w (esp_lcd_new_panel_st7735 k env io cfg w).2.2).filter Event.is_tx = [] ∧
    (cfg.reset_gpio_num ≥ 0 →
      env.ret w (.gpio_config k.GPIO_MODE_OUTPUT (2 ^ cfg.reset_gpio_num.toNat))
        ≠ k.ESP_OK →
      (esp_lcd_new_panel_st7735 k env io cfg w).1
        = env.ret w (.gpio_config k.GPIO_MODE_OUTPUT (2 ^ cfg.reset_gpio_num.toNat)) ∧
      (esp_lcd_new_panel_st7735 k env io cfg w).2.1 = none) := by
  have hmask : 2 ^ cfg.reset_gpio_num.toNat % 2 ^ 64 = 2 ^ cfg.reset_gpio_num.toNat := by
    apply Nat.mod_eq_of_lt
    apply Nat.pow_lt_pow_right (by decide)
    omega
  refine ⟨?_, ?_, ?_⟩
  · rw [new_panel_trace k env io cfg w hmem hpin]
    split_ifs <;> rfl
  · rw [new_panel_trace k env io cfg w hmem hpin]
    split_ifs <;> rfl
  · intro hn hg
    unfold esp_lcd_new_panel_st7735 new_panel_err call
    rw [hmem, hmask]
    simp only [Bool.not_true, Bool.false_eq_true, if_false, if_pos hn, ne_eq, hg,
      not_false_eq_true, if_true, and_self]

/-- C18 (witness): reset line 5 with a GPIO driver whose every call fails with -1. -/
theorem new_panel_configures_reset_pin_witness :
    (emitted [] (esp_lcd_new_panel_st7735 esp_idf env_fail 0 ⟨5, 0, 16, false⟩ []).2.2).filter
        Event.is_gpio_config
      = (if (5 : Int) ≥ 0 then
          [.gpio_config esp_idf.GPIO_MODE_OUTPUT (2 ^ (5 : Int).toNat)]
        else []) ∧
    (emitted [] (esp_lcd_new_panel_st7735 esp_idf env_fail 0 ⟨5, 0, 16, false⟩ []).2.2).filter
        Event.is_tx = [] ∧
    ((5 : Int) ≥ 0 →
      env_fail.ret [] (.gpio_config esp_idf.GPIO_MODE_OUTPUT (2 ^ (5 : Int).toNat))
        ≠ esp_idf.ESP_OK →
      (esp_lcd_new_panel_st7735 esp_idf env_fail 0 ⟨5, 0, 16, false⟩ []).1
        = env_fail.ret [] (.gpio_config esp_idf.GPIO_MODE_OUTPUT (2 ^ (5 : Int).toNat)) ∧
      (esp_lcd_new_panel_st7735 esp_idf env_fail 0 ⟨5, 0, 16, false⟩ []).2.1 = none) :=
  new_panel_configures_reset_pin esp_idf env_fail 0 ⟨5, 0, 16, false⟩ [] rfl (by decide)

end St7735
